import Mathlib

/-!
# Boiler controller (`src/src/main.cpp`): shallow embedding of the decision core

The global variables of the sketch become explicit records:

* `Config`  : the operator parameters `cfg_*` (Modbus holding registers);
* `Pines`   : the electrical level of every input pin, sampled once for a tick;
* `Entorno` : everything a tick reads from outside (pins, `millis()`,
  `getLocalTime`, the temperature left in `temperaturaActual` by `leerEntradas`);
* `Estado`  : the mutable control state (actuator flags, alternation state,
  run-time counters, post-circulation state, the function-local statics).

`unsigned long` is 32 bits on the target, so millisecond arithmetic is taken
modulo `2 ^ 32`.  `float` temperatures are modelled in exact arithmetic (`ℚ`).
-/

namespace Caldera

/-! ## Data model -/

/-- Modulus of the 32-bit `unsigned long` of the target. -/
def ULONG_MOD : Nat := 2 ^ 32

/-- Unsigned 32-bit subtraction `a - b` as the target computes it. -/
def restaU32 (a b : Nat) : Nat := (a % ULONG_MOD + ULONG_MOD - b % ULONG_MOD) % ULONG_MOD

/-- Operator parameters, the globals `cfg_*` (lines 129-142). -/
structure Config where
  cfg_alternanciaHoras : Nat
  cfg_postCirculacionSeg : Nat
  cfg_tempMinGT_x10 : Int
  cfg_tempMaxGT_x10 : Int
  cfg_sensorMode : Nat
  cfg_tempFijaGT_x10 : Int
  cfg_schedEnable : Nat
  cfg_schedMananaON : Nat
  cfg_schedMananaOFF : Nat
  cfg_schedTardeON : Nat
  cfg_schedTardeOFF : Nat
  cfg_schedDiasMask : Nat
deriving DecidableEq, Repr

/-- Default values of the parameters, as the globals are declared. -/
def cfgDefecto : Config :=
  { cfg_alternanciaHoras := 120
    cfg_postCirculacionSeg := 10
    cfg_tempMinGT_x10 := 550
    cfg_tempMaxGT_x10 := 700
    cfg_sensorMode := 1
    cfg_tempFijaGT_x10 := 600
    cfg_schedEnable := 0
    cfg_schedMananaON := 480
    cfg_schedMananaOFF := 840
    cfg_schedTardeON := 960
    cfg_schedTardeOFF := 1320
    cfg_schedDiasMask := 62 }

/-- Level of each input pin as `digitalRead` returns it: `true` is HIGH (3.3 V),
`false` is LOW (0 V). -/
structure Pines where
  PIN_SYS_ONOFF : Bool
  PIN_PROG_SEL : Bool
  PIN_SW_B1 : Bool
  PIN_SW_B2 : Bool
  PIN_JEFATURA : Bool
  PIN_EMERGENCIA : Bool
  PIN_RT1 : Bool
  PIN_RT2 : Bool
  PIN_AL_GT : Bool
deriving DecidableEq, Repr

/-- The fields of `struct tm` that the schedule gate reads. -/
structure Tm where
  tm_hour : Nat
  tm_min : Nat
  tm_wday : Nat
deriving DecidableEq, Repr

/-- What one control tick reads from outside the control state. `hora` is the
result of `getLocalTime`: `none` when the wall-clock time cannot be obtained. -/
structure Entorno where
  pines : Pines
  millis : Nat
  hora : Option Tm
  temperaturaActual : ℚ

/-- The reason tag of a post-circulation (line 206). -/
inductive MotivoPostCirc where
  | PC_NONE
  | PC_GT_OFF
  | PC_SISTEMA_OFF
  | PC_JEFATURA_OFF
  | PC_DOBLE_AVERIA
deriving DecidableEq, Repr

/-- Mutable control state: the global state variables of lines 149-220 and the
function-local statics of `actualizarSalidas`. -/
structure Estado where
  bomba1_ON : Bool
  bomba2_ON : Bool
  grupoTermico_ON : Bool
  bombaCondensacion_ON : Bool
  postCirculacion_ON : Bool
  alternancia_suspendida : Bool
  turno_bomba1 : Bool
  alternancia_inicio_ms : Nat
  tiempoB1_ms : Nat
  tiempoB2_ms : Nat
  ultimoUpdateContadores : Nat
  tiempoB1_total_ms : Nat
  tiempoB2_total_ms : Nat
  motivo_postcirc : MotivoPostCirc
  post_circulacion_activa : Bool
  post_circulacion_inicio_ms : Nat
  bomba_post_circulacion : Nat
  b1_prev_on : Bool
  b2_prev_on : Bool
  parcial_reset_pendiente : Bool
  bomba_objetivo_alternancia : Nat
  ultima_bomba_on : Nat
  lastPersist : Nat
deriving DecidableEq, Repr

/-- The state the sketch starts in: every global at its initialiser. -/
def estadoInicial : Estado :=
  { bomba1_ON := false
    bomba2_ON := false
    grupoTermico_ON := false
    bombaCondensacion_ON := false
    postCirculacion_ON := false
    alternancia_suspendida := false
    turno_bomba1 := true
    alternancia_inicio_ms := 0
    tiempoB1_ms := 0
    tiempoB2_ms := 0
    ultimoUpdateContadores := 0
    tiempoB1_total_ms := 0
    tiempoB2_total_ms := 0
    motivo_postcirc := MotivoPostCirc.PC_NONE
    post_circulacion_activa := false
    post_circulacion_inicio_ms := 0
    bomba_post_circulacion := 0
    b1_prev_on := false
    b2_prev_on := false
    parcial_reset_pendiente := false
    bomba_objetivo_alternancia := 0
    ultima_bomba_on := 0
    lastPersist := 0 }

/-! ## Helpers (lines 74-80, 360-367) -/

/-- Helper `isON(pin)`: `digitalRead(pin) == LOW`. -/
def isON (nivel : Bool) : Bool := nivel == false

/-- Helper `isALARMA(pin)`: `digitalRead(pin) == HIGH`. -/
def isALARMA (nivel : Bool) : Bool := nivel == true

/-- Function `bomba1_disponible()`: switch of pump 1 at LOW and no alarm on RT1. -/
def bomba1_disponible (p : Pines) : Bool :=
  (p.PIN_SW_B1 == false) && !isALARMA p.PIN_RT1

/-- Function `bomba2_disponible()`: switch of pump 2 at LOW and no alarm on RT2. -/
def bomba2_disponible (p : Pines) : Bool :=
  (p.PIN_SW_B2 == false) && !isALARMA p.PIN_RT2

/-! ## Control logic (lines 1154-1277, 1360-1369) -/

/-- Function `iniciarPostCirculacion()`; `ahora` is the value `millis()` returns. -/
def iniciarPostCirculacion (p : Pines) (ahora : Nat) (s : Estado) : Estado :=
  if !s.post_circulacion_activa then
    let s1 := { s with post_circulacion_activa := true, post_circulacion_inicio_ms := ahora }
    if bomba1_disponible p then
      { s1 with bomba_post_circulacion := 1 }
    else if bomba2_disponible p then
      { s1 with bomba_post_circulacion := 2 }
    else
      { s1 with bomba_post_circulacion := 3 }
  else s

/-- Function `gestionarAlternancia(err1, err2)`. The limit is a 64-bit product stored in
a 32-bit `unsigned long`. -/
def gestionarAlternancia (cfg : Config) (err1 err2 : Bool) (s : Estado) : Estado :=
  if err1 && !err2 then { s with bomba1_ON := false, bomba2_ON := true }
  else if err2 && !err1 then { s with bomba1_ON := true, bomba2_ON := false }
  else if err1 && err2 then { s with bomba1_ON := false, bomba2_ON := false }
  else
    let limite_ms := (cfg.cfg_alternanciaHoras * 3600000) % ULONG_MOD
    if s.tiempoB1_ms ≥ limite_ms then { s with bomba1_ON := false, bomba2_ON := true }
    else if s.tiempoB2_ms ≥ limite_ms then { s with bomba1_ON := true, bomba2_ON := false }
    else if !s.bomba1_ON && !s.bomba2_ON then { s with bomba1_ON := true }
    else s

/-- Function `controlarTemperaturaGT()`, with the temperature in exact arithmetic. -/
def controlarTemperaturaGT (cfg : Config) (temperaturaActual : ℚ) (s : Estado) : Estado :=
  let consigna : ℚ := (cfg.cfg_tempFijaGT_x10 : ℚ) / 10
  if temperaturaActual < consigna - 2 then { s with grupoTermico_ON := true }
  else if temperaturaActual > consigna then { s with grupoTermico_ON := false }
  else s

/-- Function `verificarHorario()`; `hora` is the result of `getLocalTime`. The day bit is
stored in a `uint8_t`. -/
def verificarHorario (cfg : Config) (hora : Option Tm) : Bool :=
  if cfg.cfg_schedEnable = 0 then true
  else
    match hora with
    | some timeinfo =>
      let hora_actual := timeinfo.tm_hour * 60 + timeinfo.tm_min
      let dia_semana := timeinfo.tm_wday
      let bit_dia := (1 <<< dia_semana) % 256
      if cfg.cfg_schedDiasMask &&& bit_dia = 0 then false
      else if hora_actual ≥ cfg.cfg_schedMananaON ∧ hora_actual < cfg.cfg_schedMananaOFF then true
      else if hora_actual ≥ cfg.cfg_schedTardeON ∧ hora_actual < cfg.cfg_schedTardeOFF then true
      else false
    | none => true

/-- Function `ejecutarLogicaControl()`: one control tick. The pins are sampled once
for the whole tick; `millis()` is read only inside `iniciarPostCirculacion`. -/
def ejecutarLogicaControl (cfg : Config) (e : Entorno) (s : Estado) : Estado :=
  let hayEmergencia := isALARMA e.pines.PIN_EMERGENCIA
  let sistemaEnOFF := !isON e.pines.PIN_SYS_ONOFF
  let jefaturaEnOFF := !isON e.pines.PIN_JEFATURA
  let progEnON := isON e.pines.PIN_PROG_SEL
  let errorRT1 := isALARMA e.pines.PIN_RT1
  let errorRT2 := isALARMA e.pines.PIN_RT2
  if hayEmergencia then
    { s with bomba1_ON := false, bomba2_ON := false, grupoTermico_ON := false,
             bombaCondensacion_ON := false, postCirculacion_ON := false }
  else if sistemaEnOFF then
    let s1 := if s.grupoTermico_ON then iniciarPostCirculacion e.pines e.millis s else s
    let s2 := { s1 with grupoTermico_ON := false }
    if !s2.postCirculacion_ON then { s2 with bomba1_ON := false, bomba2_ON := false } else s2
  else if errorRT1 && errorRT2 then
    { s with grupoTermico_ON := false, bomba1_ON := false, bomba2_ON := false,
             bombaCondensacion_ON := true }
  else if jefaturaEnOFF then
    let s1 := if s.grupoTermico_ON then iniciarPostCirculacion e.pines e.millis s else s
    let s2 := { s1 with grupoTermico_ON := false }
    if !s2.postCirculacion_ON then { s2 with bomba1_ON := false, bomba2_ON := false } else s2
  else if progEnON && !verificarHorario cfg e.hora then
    let s1 := if s.grupoTermico_ON then iniciarPostCirculacion e.pines e.millis s else s
    let s2 := { s1 with grupoTermico_ON := false }
    if !s2.postCirculacion_ON then { s2 with bomba1_ON := false, bomba2_ON := false } else s2
  else
    let s1 := { s with postCirculacion_ON := false }
    let s2 :=
      if !bomba1_disponible e.pines && !bomba2_disponible e.pines then
        { s1 with bomba1_ON := false, bomba2_ON := false, bombaCondensacion_ON := true }
      else gestionarAlternancia cfg errorRT1 errorRT2 s1
    if s2.bomba1_ON || s2.bomba2_ON then controlarTemperaturaGT cfg e.temperaturaActual s2
    else { s2 with grupoTermico_ON := false }

/-- Function `actualizarBombasEnPostCirc()`; `ahora` is the value `millis()` returns. -/
def actualizarBombasEnPostCirc (cfg : Config) (ahora : Nat) (s : Estado) : Estado :=
  if s.post_circulacion_activa then
    let seg := restaU32 ahora s.post_circulacion_inicio_ms / 1000
    if seg ≥ cfg.cfg_postCirculacionSeg then
      { s with post_circulacion_activa := false, postCirculacion_ON := false }
    else s
  else s

/-! ## Runs of the control loop -/

/-- One iteration of the control loop as seen by the arbiter: the parameters,
the inputs and the two run-time counters it reads may have any value. -/
structure Paso where
  cfg : Config
  ent : Entorno
  tiempoB1_ms : Nat
  tiempoB2_ms : Nat

/-- A control tick under the values of `p`. -/
def ejecutarPaso (s : Estado) (p : Paso) : Estado :=
  ejecutarLogicaControl p.cfg p.ent
    { s with tiempoB1_ms := p.tiempoB1_ms, tiempoB2_ms := p.tiempoB2_ms }

/-- A finite sequence of control ticks. -/
def ejecutarPasos (s : Estado) (ps : List Paso) : Estado :=
  ps.foldl ejecutarPaso s

/-! ## Alternation engine and post-circulation cancel (lines 370-419) -/

/-- Function `determinarBombaActiva()`: the pump number it returns and the state
it leaves; `ahora` is the value `millis()` returns. The period is a product of
32-bit `unsigned long`. -/
def determinarBombaActiva (cfg : Config) (p : Pines) (ahora : Nat) (s : Estado) :
    Nat × Estado :=
  if s.alternancia_suspendida then
    if bomba1_disponible p && !bomba2_disponible p then (1, s)
    else if !bomba1_disponible p && bomba2_disponible p then (2, s)
    else (0, s)
  else
    let tiempo_alternancia_ms := (cfg.cfg_alternanciaHoras * 60000) % ULONG_MOD
    if s.turno_bomba1 then
      if bomba1_disponible p then
        if restaU32 ahora s.alternancia_inicio_ms ≥ tiempo_alternancia_ms then
          (2, { s with turno_bomba1 := false, alternancia_inicio_ms := ahora })
        else (1, s)
      else if bomba2_disponible p then
        (2, { s with alternancia_suspendida := true })
      else (0, s)
    else
      if bomba2_disponible p then
        if restaU32 ahora s.alternancia_inicio_ms ≥ tiempo_alternancia_ms then
          (1, { s with turno_bomba1 := true, alternancia_inicio_ms := ahora })
        else (2, s)
      else if bomba1_disponible p then
        (1, { s with alternancia_suspendida := true })
      else (0, s)

/-- Function `cancelarPostCirculacion()`. No statement of the program calls it. -/
def cancelarPostCirculacion (s : Estado) : Estado :=
  { s with post_circulacion_activa := false, bomba_post_circulacion := 0,
           postCirculacion_ON := false }

/-! ## Persistent store and configuration registers (lines 433-444, 484-598) -/

/-- A value kept by the `Preferences` store, tagged with the type it was put as. -/
inductive ValorNVS where
  | ushort (v : Nat)
  | short (v : Int)
  | ulong (v : Nat)
deriving DecidableEq, Repr

/-- The key-value store behind `prefs` (namespace "caldera"): what each key holds. -/
def NVS : Type := String → Option ValorNVS

/-- The store with no key. -/
def NVS.vacio : NVS := fun _ => none

/-- Library call `prefs.putUShort(key, v)`. -/
def NVS.putUShort (nvs : NVS) (key : String) (v : Nat) : NVS :=
  fun k => if k = key then some (ValorNVS.ushort v) else nvs k

/-- Library call `prefs.putShort(key, v)`. -/
def NVS.putShort (nvs : NVS) (key : String) (v : Int) : NVS :=
  fun k => if k = key then some (ValorNVS.short v) else nvs k

/-- Library call `prefs.putULong(key, v)`. -/
def NVS.putULong (nvs : NVS) (key : String) (v : Nat) : NVS :=
  fun k => if k = key then some (ValorNVS.ulong v) else nvs k

/-- Library call `prefs.getUShort(key, def)`: the default when the key is absent
or holds a value of another type. -/
def NVS.getUShort (nvs : NVS) (key : String) (defecto : Nat) : Nat :=
  match nvs key with
  | some (ValorNVS.ushort v) => v
  | _ => defecto

/-- Library call `prefs.getShort(key, def)`. -/
def NVS.getShort (nvs : NVS) (key : String) (defecto : Int) : Int :=
  match nvs key with
  | some (ValorNVS.short v) => v
  | _ => defecto

/-- Library call `prefs.getULong(key, def)`. -/
def NVS.getULong (nvs : NVS) (key : String) (defecto : Nat) : Nat :=
  match nvs key with
  | some (ValorNVS.ulong v) => v
  | _ => defecto

/-- Conversion of a 16-bit unsigned value to `int16_t`. -/
def toInt16 (v : Nat) : Int :=
  if v % 65536 < 32768 then ((v % 65536 : Nat) : Int) else ((v % 65536 : Nat) : Int) - 65536

/-- Holding register 40001. -/
def MB_REG_ALT_HOURS : Nat := 0
/-- Holding register 40002. -/
def MB_REG_PUMP_STOP_DELAY : Nat := 1
/-- Holding register 40003. -/
def MB_REG_GT_TMIN : Nat := 2
/-- Holding register 40004. -/
def MB_REG_GT_TMAX : Nat := 3
/-- Holding register 40005. -/
def MB_REG_GT_SENSOR_MODE : Nat := 4
/-- Holding register 40006. -/
def MB_REG_GT_TFIXED : Nat := 5
/-- Holding register 40007. -/
def MB_REG_SCHED_ENABLE : Nat := 6
/-- Holding register 40100. -/
def MB_REG_SCHED_M_ON : Nat := 100
/-- Holding register 40101. -/
def MB_REG_SCHED_M_OFF : Nat := 101
/-- Holding register 40102. -/
def MB_REG_SCHED_T_ON : Nat := 102
/-- Holding register 40103. -/
def MB_REG_SCHED_T_OFF : Nat := 103
/-- Holding register 40104. -/
def MB_REG_SCHED_DOW_MASK : Nat := 104

/-- Function `updateInternalVariableFromModbus(regNum, val)` over the parameters
and the store; `val` is the `uint16_t` argument. -/
def updateInternalVariableFromModbus (regNum val : Nat) (cfg : Config) (nvs : NVS) :
    Config × NVS :=
  if regNum = MB_REG_ALT_HOURS then
    ({ cfg with cfg_alternanciaHoras := val }, nvs.putUShort "alt" val)
  else if regNum = MB_REG_PUMP_STOP_DELAY then
    ({ cfg with cfg_postCirculacionSeg := val }, nvs.putUShort "post" val)
  else if regNum = MB_REG_GT_TMIN then
    ({ cfg with cfg_tempMinGT_x10 := toInt16 val }, nvs.putShort "tmin" (toInt16 val))
  else if regNum = MB_REG_GT_TMAX then
    ({ cfg with cfg_tempMaxGT_x10 := toInt16 val }, nvs.putShort "tmax" (toInt16 val))
  else if regNum = MB_REG_GT_SENSOR_MODE then
    ({ cfg with cfg_sensorMode := val }, nvs.putUShort "mode" val)
  else if regNum = MB_REG_GT_TFIXED then
    ({ cfg with cfg_tempFijaGT_x10 := toInt16 val }, nvs.putShort "tfix" (toInt16 val))
  else if regNum = MB_REG_SCHED_ENABLE then
    ({ cfg with cfg_schedEnable := val }, nvs.putUShort "sch_en" val)
  else if regNum = MB_REG_SCHED_M_ON then
    ({ cfg with cfg_schedMananaON := val }, nvs.putUShort "m_on" val)
  else if regNum = MB_REG_SCHED_M_OFF then
    ({ cfg with cfg_schedMananaOFF := val }, nvs.putUShort "m_off" val)
  else if regNum = MB_REG_SCHED_T_ON then
    ({ cfg with cfg_schedTardeON := val }, nvs.putUShort "t_on" val)
  else if regNum = MB_REG_SCHED_T_OFF then
    ({ cfg with cfg_schedTardeOFF := val }, nvs.putUShort "t_off" val)
  else if regNum = MB_REG_SCHED_DOW_MASK then
    ({ cfg with cfg_schedDiasMask := val }, nvs.putUShort "mask" val)
  else (cfg, nvs)

/-- Function `loadAllSettingsFromNVS()`: every parameter is read with its current
value as default, the two total counters with default 0. -/
def loadAllSettingsFromNVS (nvs : NVS) (cfg : Config) (s : Estado) : Config × Estado :=
  ({ cfg_alternanciaHoras := nvs.getUShort "alt" cfg.cfg_alternanciaHoras
     cfg_postCirculacionSeg := nvs.getUShort "post" cfg.cfg_postCirculacionSeg
     cfg_tempMinGT_x10 := nvs.getShort "tmin" cfg.cfg_tempMinGT_x10
     cfg_tempMaxGT_x10 := nvs.getShort "tmax" cfg.cfg_tempMaxGT_x10
     cfg_sensorMode := nvs.getUShort "mode" cfg.cfg_sensorMode
     cfg_tempFijaGT_x10 := nvs.getShort "tfix" cfg.cfg_tempFijaGT_x10
     cfg_schedEnable := nvs.getUShort "sch_en" cfg.cfg_schedEnable
     cfg_schedMananaON := nvs.getUShort "m_on" cfg.cfg_schedMananaON
     cfg_schedMananaOFF := nvs.getUShort "m_off" cfg.cfg_schedMananaOFF
     cfg_schedTardeON := nvs.getUShort "t_on" cfg.cfg_schedTardeON
     cfg_schedTardeOFF := nvs.getUShort "t_off" cfg.cfg_schedTardeOFF
     cfg_schedDiasMask := nvs.getUShort "mask" cfg.cfg_schedDiasMask },
   { s with tiempoB1_total_ms := nvs.getULong "b1_total_ms" 0
            tiempoB2_total_ms := nvs.getULong "b2_total_ms" 0 })

/-- The load that `setup()` performs (line 1427): every global still holds its
initialiser when `loadAllSettingsFromNVS` reads the store found at power-up. -/
def arranque (nvs0 : NVS) : Config × Estado :=
  loadAllSettingsFromNVS nvs0 cfgDefecto estadoInicial

/-- A sequence of register writes `(regNum, val)`, each applied by
`updateInternalVariableFromModbus` to the parameters and the store. -/
def escribirRegistros (ws : List (Nat × Nat)) (x : Config × NVS) : Config × NVS :=
  ws.foldl (fun y w => updateInternalVariableFromModbus w.1 w.2 y.1 y.2) x

/-! ## Output update and run-time counters (lines 1279-1353) -/

/-- Function `actualizarSalidas()`: its effect on the control state and on the
store; `ahora` is the value `millis()` returns. The writes to the output pins
(lines 1280-1297) read the state without changing it and are left out. -/
def actualizarSalidas (ahora : Nat) (nvs : NVS) (s : Estado) : Estado × NVS :=
  let flanco_on_b1 := !s.b1_prev_on && s.bomba1_ON
  let flanco_on_b2 := !s.b2_prev_on && s.bomba2_ON
  let bomba_actual_on : Nat := if s.bomba1_ON then 1 else if s.bomba2_ON then 2 else 0
  let s1 :=
    if s.ultima_bomba_on ≠ 0 ∧ bomba_actual_on ≠ 0 ∧ bomba_actual_on ≠ s.ultima_bomba_on then
      { s with parcial_reset_pendiente := true, bomba_objetivo_alternancia := bomba_actual_on }
    else s
  let s2 :=
    if s1.parcial_reset_pendiente then
      let sa :=
        if flanco_on_b1 && s1.bomba_objetivo_alternancia == 1 then
          { s1 with tiempoB1_ms := 0, parcial_reset_pendiente := false }
        else s1
      if flanco_on_b2 && sa.bomba_objetivo_alternancia == 2 then
        { sa with tiempoB2_ms := 0, parcial_reset_pendiente := false }
      else sa
    else s1
  let s3 := { s2 with b1_prev_on := s2.bomba1_ON, b2_prev_on := s2.bomba2_ON,
                      ultima_bomba_on := bomba_actual_on }
  let deltaTiempo := restaU32 ahora s3.ultimoUpdateContadores
  let s4 :=
    if s3.bomba1_ON then
      { s3 with tiempoB1_ms := (s3.tiempoB1_ms + deltaTiempo) % ULONG_MOD,
                tiempoB1_total_ms := (s3.tiempoB1_total_ms + deltaTiempo) % ULONG_MOD }
    else s3
  let s5 :=
    if s4.bomba2_ON then
      { s4 with tiempoB2_ms := (s4.tiempoB2_ms + deltaTiempo) % ULONG_MOD,
                tiempoB2_total_ms := (s4.tiempoB2_total_ms + deltaTiempo) % ULONG_MOD }
    else s4
  let s6 := { s5 with ultimoUpdateContadores := ahora }
  if restaU32 ahora s6.lastPersist > 60000 then
    ({ s6 with lastPersist := ahora },
      (nvs.putULong "b1_total_ms" s6.tiempoB1_total_ms).putULong "b2_total_ms"
        s6.tiempoB2_total_ms)
  else (s6, nvs)

/-- Lines 1310-1313 of `actualizarSalidas`: a change of active pump arms the reset. -/
def marcarReset (bomba_actual_on : Nat) (s : Estado) : Estado :=
  if s.ultima_bomba_on ≠ 0 ∧ bomba_actual_on ≠ 0 ∧ bomba_actual_on ≠ s.ultima_bomba_on then
    { s with parcial_reset_pendiente := true, bomba_objetivo_alternancia := bomba_actual_on }
  else s

/-- Lines 1315-1324 of `actualizarSalidas`: an armed reset fires on the rising
edge of the target pump. -/
def aplicarReset (flanco_on_b1 flanco_on_b2 : Bool) (s1 : Estado) : Estado :=
  if s1.parcial_reset_pendiente then
    let sa :=
      if flanco_on_b1 && s1.bomba_objetivo_alternancia == 1 then
        { s1 with tiempoB1_ms := 0, parcial_reset_pendiente := false }
      else s1
    if flanco_on_b2 && sa.bomba_objetivo_alternancia == 2 then
      { sa with tiempoB2_ms := 0, parcial_reset_pendiente := false }
    else sa
  else s1

/-- Lines 1326-1343 of `actualizarSalidas`: the flags are remembered and the run
times of the pumps that are on grow by the elapsed time. -/
def acumularTiempos (ahora bomba_actual_on : Nat) (s2 : Estado) : Estado :=
  let s3 := { s2 with b1_prev_on := s2.bomba1_ON, b2_prev_on := s2.bomba2_ON,
                      ultima_bomba_on := bomba_actual_on }
  let deltaTiempo := restaU32 ahora s3.ultimoUpdateContadores
  let s4 :=
    if s3.bomba1_ON then
      { s3 with tiempoB1_ms := (s3.tiempoB1_ms + deltaTiempo) % ULONG_MOD,
                tiempoB1_total_ms := (s3.tiempoB1_total_ms + deltaTiempo) % ULONG_MOD }
    else s3
  let s5 :=
    if s4.bomba2_ON then
      { s4 with tiempoB2_ms := (s4.tiempoB2_ms + deltaTiempo) % ULONG_MOD,
                tiempoB2_total_ms := (s4.tiempoB2_total_ms + deltaTiempo) % ULONG_MOD }
    else s4
  { s5 with ultimoUpdateContadores := ahora }

/-- Lines 1345-1352 of `actualizarSalidas`: the totals are stored at most once a
minute. -/
def persistirTotales (ahora : Nat) (nvs : NVS) (s6 : Estado) : Estado × NVS :=
  if restaU32 ahora s6.lastPersist > 60000 then
    ({ s6 with lastPersist := ahora },
      (nvs.putULong "b1_total_ms" s6.tiempoB1_total_ms).putULong "b2_total_ms"
        s6.tiempoB2_total_ms)
  else (s6, nvs)

/-- The timed block of `loop()` (lines 1484-1491): `ejecutarLogicaControl` followed
by `actualizarSalidas`, both at the time `e.millis`. -/
def cicloControl (cfg : Config) (e : Entorno) (x : Estado × NVS) : Estado × NVS :=
  actualizarSalidas e.millis x.2 (ejecutarLogicaControl cfg e x.1)

/-! ## Counter resets and temperature reading (lines 92-100, 476-480, 1036-1064) -/

/-- Reset register 40228. -/
def MB_REG_RESET_B1_PARCIAL : Nat := 227
/-- Reset register 40229. -/
def MB_REG_RESET_B1_TOTAL : Nat := 228
/-- Reset register 40230. -/
def MB_REG_RESET_B2_PARCIAL : Nat := 229
/-- Reset register 40231. -/
def MB_REG_RESET_B2_TOTAL : Nat := 230

/-- Function `handleReset()`: its effect on the control state and on the store.
The argument is `none` when the request has no parameter "r", else the `int`
that `toInt()` gives. -/
def handleReset (r : Option Int) (s : Estado) (nvs : NVS) : Estado × NVS :=
  match r with
  | some reg =>
    if reg = (MB_REG_RESET_B1_PARCIAL : Int) then ({ s with tiempoB1_ms := 0 }, nvs)
    else if reg = (MB_REG_RESET_B1_TOTAL : Int) then
      ({ s with tiempoB1_total_ms := 0 }, nvs.putULong "b1_total_ms" 0)
    else if reg = (MB_REG_RESET_B2_PARCIAL : Int) then ({ s with tiempoB2_ms := 0 }, nvs)
    else if reg = (MB_REG_RESET_B2_TOTAL : Int) then
      ({ s with tiempoB2_total_ms := 0 }, nvs.putULong "b2_total_ms" 0)
    else (s, nvs)
  | none => (s, nvs)

/-- Modelled from the spec: the Arduino macro `constrain(amt, low, high)`, which
is not part of the sources; it bounds `amt` to the range from `low` to `high`:
`amt < low ? low : (amt > high ? high : amt)`. -/
def constrain (amt low high : ℚ) : ℚ :=
  if amt < low then low else if amt > high then high else amt

/-- Function `leerTemperaturaNTC()` in exact arithmetic; `rawValue` is what
`analogRead(PIN_NTC_IMP)` returns. -/
def leerTemperaturaNTC (rawValue : Int) : ℚ :=
  let voltage : ℚ := ((rawValue : ℚ) / 4095) * (33 / 10)
  let temperature : ℚ := (voltage / (33 / 10)) * 100
  constrain temperature 0 100

/-! ## Runs with post-circulation events -/

/-- What can happen to the control state between two observations: a control
tick, a post-circulation trigger, or a check of the post-circulation timer. -/
inductive Evento where
  | tick (p : Paso)
  | disparo (p : Pines) (ahora : Nat)
  | temporizador (cfg : Config) (ahora : Nat)

/-- The effect of one event. -/
def ejecutarEvento (s : Estado) (ev : Evento) : Estado :=
  match ev with
  | Evento.tick p => ejecutarPaso s p
  | Evento.disparo p ahora => iniciarPostCirculacion p ahora s
  | Evento.temporizador cfg ahora => actualizarBombasEnPostCirc cfg ahora s

/-- A finite sequence of events. -/
def ejecutarEventos (s : Estado) (evs : List Evento) : Estado :=
  evs.foldl ejecutarEvento s

/-! ## Concrete inputs used in the examples -/

/-- Every input at LOW except the program selector: system on, supervisory on,
both pump switches on, no alarm, program selector off. -/
def pinesNormal : Pines :=
  { PIN_SYS_ONOFF := false
    PIN_PROG_SEL := true
    PIN_SW_B1 := false
    PIN_SW_B2 := false
    PIN_JEFATURA := false
    PIN_EMERGENCIA := false
    PIN_RT1 := false
    PIN_RT2 := false
    PIN_AL_GT := false }

/-- Normal inputs at time 0 with a cold boiler (20 degrees), no wall clock. -/
def entNormal : Entorno :=
  { pines := pinesNormal, millis := 0, hora := none, temperaturaActual := 20 }

/-- Normal inputs with the emergency input asserted. -/
def entEmergencia : Entorno :=
  { entNormal with pines := { pinesNormal with PIN_EMERGENCIA := true } }

/-- Normal inputs with the system switch off, five seconds after start. -/
def entSistemaOff : Entorno :=
  { entNormal with pines := { pinesNormal with PIN_SYS_ONOFF := true }, millis := 5000 }

/-- Both thermal relays tripped, system on, no emergency. -/
def entDobleAveria : Entorno :=
  { entNormal with pines := { pinesNormal with PIN_RT1 := true, PIN_RT2 := true } }

/-- Both thermal relays tripped while the system switch is off. -/
def entDobleAveriaSistemaOff : Entorno :=
  { entNormal with
    pines := { pinesNormal with PIN_RT1 := true, PIN_RT2 := true, PIN_SYS_ONOFF := true } }

/-- Both thermal relays tripped while the emergency input is asserted. -/
def entDobleAveriaEmergencia : Entorno :=
  { entNormal with
    pines := { pinesNormal with PIN_RT1 := true, PIN_RT2 := true, PIN_EMERGENCIA := true } }

/-- The state after one normal tick from the initial state with a cold boiler:
pump 1 and the thermal group are running. -/
def estadoEnMarcha : Estado :=
  ejecutarLogicaControl cfgDefecto entNormal estadoInicial

/-- The state after the system switch is turned off in the running state: a
post-circulation has just been started at time 5000. -/
def estadoPostCirc : Estado :=
  ejecutarLogicaControl cfgDefecto entSistemaOff estadoEnMarcha

/-- Default parameters with the schedule enabled: windows 08:00-14:00 and
16:00-22:00, Monday to Friday. -/
def cfgHorario : Config := { cfgDefecto with cfg_schedEnable := 1 }

/-- Schedule enabled with an empty day mask and empty windows. -/
def cfgHorarioVacio : Config :=
  { cfgDefecto with cfg_schedEnable := 1, cfg_schedDiasMask := 0,
                    cfg_schedMananaON := 0, cfg_schedMananaOFF := 0,
                    cfg_schedTardeON := 0, cfg_schedTardeOFF := 0 }

/-- Normal inputs with both pump switches off: neither pump is available. -/
def entSinBombas : Entorno :=
  { entNormal with pines := { pinesNormal with PIN_SW_B1 := true, PIN_SW_B2 := true } }

/-- Normal pins with the switch of pump 2 off: only pump 1 is available. -/
def pinesSoloB1 : Pines := { pinesNormal with PIN_SW_B2 := true }

/-- The initial state with the alternation suspended. -/
def estadoSuspendido : Estado := { estadoInicial with alternancia_suspendida := true }

/-- The running state after pump 1 has accumulated 120 minutes of run time. -/
def estadoB1DosHoras : Estado := { estadoEnMarcha with tiempoB1_ms := 7200000 }

/-- A state with the pump flags as the arbiter leaves them between two output
updates. -/
def conBombas (s : Estado) (b1 b2 : Bool) : Estado :=
  { s with bomba1_ON := b1, bomba2_ON := b2 }

/-- Default parameters with the alternation period set to 1. -/
def cfgAlt1 : Config := { cfgDefecto with cfg_alternanciaHoras := 1 }

/-- Normal inputs (both pumps available, no fault, cold boiler) at time `t`. -/
def entNormalEn (t : Nat) : Entorno := { entNormal with millis := t }

/-- Four control cycles from the initial state under normal inputs with period 1:
pump 1 starts at time 0, has run 3600000 ms at the second cycle, hands over to
pump 2 at the third (time 3600100), and pump 2 has in turn run 3600100 ms at
the fourth (time 7200100). -/
def trasRelevo : Estado × NVS :=
  [0, 3600000, 3600100, 7200100].foldl
    (fun x t => cicloControl cfgAlt1 (entNormalEn t) x) (estadoInicial, NVS.vacio)

/-- The running state with the total of pump 1 at the largest 32-bit value. -/
def estadoTotalAlLimite : Estado := { estadoEnMarcha with tiempoB1_total_ms := 4294967295 }

/-- Normal inputs with the switch of pump 1 off: only pump 2 is available. -/
def entSoloB2 : Entorno :=
  { entNormal with pines := { pinesNormal with PIN_SW_B1 := true } }

/-- Normal pins with the thermal relay of pump 1 tripped. -/
def pinesAveriaRT1 : Pines := { pinesNormal with PIN_RT1 := true }

/-- The initial state with the turn given to pump 2. -/
def estadoTurnoB2 : Estado := { estadoInicial with turno_bomba1 := false }

/-- The state after the running state sees both pump switches off: the
condensation pump has been started as fail-safe. -/
def estadoCondensacion : Estado :=
  ejecutarLogicaControl cfgDefecto entSinBombas estadoEnMarcha

/-! ## Shared lemmas -/

/-- The alternation never leaves both pumps on when it did not find them both on. -/
theorem gestionarAlternancia_exclusion (cfg : Config) (err1 err2 : Bool) (s : Estado)
    (h : ¬ (s.bomba1_ON = true ∧ s.bomba2_ON = true)) :
    ¬ ((gestionarAlternancia cfg err1 err2 s).bomba1_ON = true ∧
       (gestionarAlternancia cfg err1 err2 s).bomba2_ON = true) := by
  unfold gestionarAlternancia
  simp only []
  split_ifs <;> simp_all

/-- Starting a post-circulation does not touch the actuator flags. -/
theorem iniciarPostCirculacion_salidas (p : Pines) (ahora : Nat) (s : Estado) :
    (iniciarPostCirculacion p ahora s).bomba1_ON = s.bomba1_ON ∧
    (iniciarPostCirculacion p ahora s).bomba2_ON = s.bomba2_ON ∧
    (iniciarPostCirculacion p ahora s).grupoTermico_ON = s.grupoTermico_ON ∧
    (iniciarPostCirculacion p ahora s).bombaCondensacion_ON = s.bombaCondensacion_ON ∧
    (iniciarPostCirculacion p ahora s).postCirculacion_ON = s.postCirculacion_ON := by
  unfold iniciarPostCirculacion
  split_ifs <;> simp

/-- The thermal regulator only writes the thermal-group flag. -/
theorem controlarTemperaturaGT_bombas (cfg : Config) (t : ℚ) (s : Estado) :
    (controlarTemperaturaGT cfg t s).bomba1_ON = s.bomba1_ON ∧
    (controlarTemperaturaGT cfg t s).bomba2_ON = s.bomba2_ON ∧
    (controlarTemperaturaGT cfg t s).bombaCondensacion_ON = s.bombaCondensacion_ON ∧
    (controlarTemperaturaGT cfg t s).postCirculacion_ON = s.postCirculacion_ON := by
  unfold controlarTemperaturaGT
  simp only []
  split_ifs <;> simp

/-- A control tick keeps the two pumps mutually exclusive. -/
theorem ejecutarLogicaControl_exclusion (cfg : Config) (e : Entorno) (s : Estado)
    (h : ¬ (s.bomba1_ON = true ∧ s.bomba2_ON = true)) :
    ¬ ((ejecutarLogicaControl cfg e s).bomba1_ON = true ∧
       (ejecutarLogicaControl cfg e s).bomba2_ON = true) := by
  have hi := iniciarPostCirculacion_salidas e.pines e.millis s
  have hg := gestionarAlternancia_exclusion cfg (isALARMA e.pines.PIN_RT1)
    (isALARMA e.pines.PIN_RT2) { s with postCirculacion_ON := false } h
  unfold ejecutarLogicaControl
  simp only []
  split_ifs <;> simp_all [(controlarTemperaturaGT_bombas _ _ _).1,
    (controlarTemperaturaGT_bombas _ _ _).2.1]

/-- The state after one normal tick from the initial state, field by field. -/
theorem estadoEnMarcha_eq :
    estadoEnMarcha = { estadoInicial with bomba1_ON := true, grupoTermico_ON := true } := by
  simp [estadoEnMarcha, ejecutarLogicaControl, gestionarAlternancia, controlarTemperaturaGT,
    entNormal, pinesNormal, estadoInicial, cfgDefecto, isALARMA, isON, bomba1_disponible,
    bomba2_disponible, verificarHorario, ULONG_MOD]
  norm_num

/-- The state after the stop tick that follows the running state, field by field. -/
theorem estadoPostCirc_eq :
    estadoPostCirc = { estadoInicial with post_circulacion_activa := true,
                                          post_circulacion_inicio_ms := 5000,
                                          bomba_post_circulacion := 1 } := by
  rw [estadoPostCirc, estadoEnMarcha_eq]
  simp [ejecutarLogicaControl, iniciarPostCirculacion, entSistemaOff, entNormal, pinesNormal,
    estadoInicial, isALARMA, isON, bomba1_disponible]

/-- For a weekday `w` in `0..6` the day bit fits the `uint8_t`, and the mask test
of the schedule gate reads bit `w` of the mask. -/
theorem mask_and_bit_dia (mask w : Nat) (hw : w ≤ 6) :
    mask &&& ((1 <<< w) % 256) = 0 ↔ mask.testBit w = false := by
  have hlt : 2 ^ w < 256 := by
    calc 2 ^ w ≤ 2 ^ 6 := Nat.pow_le_pow_right (by norm_num) hw
      _ < 256 := by norm_num
  rw [Nat.one_shiftLeft, Nat.mod_eq_of_lt hlt]
  constructor
  · intro h
    have h2 : (mask &&& 2 ^ w).testBit w = false := by rw [h]; simp
    simpa [Nat.testBit_and, Nat.testBit_two_pow_self] using h2
  · intro h
    apply Nat.eq_of_testBit_eq
    intro i
    rw [Nat.testBit_and, Nat.testBit_two_pow]
    by_cases hi : w = i
    · subst hi
      simp [h]
    · simp [hi]

/-- The difference of two 32-bit times fits in 32 bits. -/
theorem restaU32_lt (a b : Nat) : restaU32 a b < ULONG_MOD := by
  unfold restaU32
  exact Nat.mod_lt _ (by norm_num [ULONG_MOD])

/-- The body of `actualizarSalidas` read as its four consecutive blocks. -/
theorem actualizarSalidas_etapas (t : Nat) (nvs : NVS) (s : Estado) :
    actualizarSalidas t nvs s =
      persistirTotales t nvs
        (acumularTiempos t (if s.bomba1_ON then 1 else if s.bomba2_ON then 2 else 0)
          (aplicarReset (!s.b1_prev_on && s.bomba1_ON) (!s.b2_prev_on && s.bomba2_ON)
            (marcarReset (if s.bomba1_ON then 1 else if s.bomba2_ON then 2 else 0) s))) :=
  rfl

/-- Arming the reset leaves the flags, the remembered flags and the counters. -/
theorem marcarReset_campos (a : Nat) (s : Estado) :
    (marcarReset a s).bomba1_ON = s.bomba1_ON ∧
    (marcarReset a s).bomba2_ON = s.bomba2_ON ∧
    (marcarReset a s).tiempoB1_ms = s.tiempoB1_ms ∧
    (marcarReset a s).tiempoB2_ms = s.tiempoB2_ms ∧
    (marcarReset a s).ultimoUpdateContadores = s.ultimoUpdateContadores := by
  unfold marcarReset
  split_ifs <;> simp

/-- Firing the reset leaves the flags and the time of the last update. -/
theorem aplicarReset_campos (f1 f2 : Bool) (s : Estado) :
    (aplicarReset f1 f2 s).bomba1_ON = s.bomba1_ON ∧
    (aplicarReset f1 f2 s).bomba2_ON = s.bomba2_ON ∧
    (aplicarReset f1 f2 s).ultimoUpdateContadores = s.ultimoUpdateContadores := by
  unfold aplicarReset
  simp only []
  split_ifs <;> simp

/-- Without a rising edge no run time is reset. -/
theorem aplicarReset_sin_flanco (s : Estado) :
    (aplicarReset false false s).tiempoB1_ms = s.tiempoB1_ms ∧
    (aplicarReset false false s).tiempoB2_ms = s.tiempoB2_ms := by
  unfold aplicarReset
  simp

/-- The accumulation block field by field. -/
theorem acumularTiempos_campos (t a : Nat) (s : Estado) :
    (acumularTiempos t a s).b1_prev_on = s.bomba1_ON ∧
    (acumularTiempos t a s).b2_prev_on = s.bomba2_ON ∧
    (acumularTiempos t a s).ultima_bomba_on = a ∧
    (acumularTiempos t a s).ultimoUpdateContadores = t ∧
    (acumularTiempos t a s).bomba1_ON = s.bomba1_ON ∧
    (acumularTiempos t a s).bomba2_ON = s.bomba2_ON ∧
    (acumularTiempos t a s).tiempoB1_ms
      = (if s.bomba1_ON = true then
          (s.tiempoB1_ms + restaU32 t s.ultimoUpdateContadores) % ULONG_MOD
         else s.tiempoB1_ms) ∧
    (acumularTiempos t a s).tiempoB2_ms
      = (if s.bomba2_ON = true then
          (s.tiempoB2_ms + restaU32 t s.ultimoUpdateContadores) % ULONG_MOD
         else s.tiempoB2_ms) := by
  unfold acumularTiempos
  cases h1 : s.bomba1_ON <;> cases h2 : s.bomba2_ON <;> simp [h1, h2]

/-- Storing the totals changes no field of the state but `lastPersist`. -/
theorem persistirTotales_campos (t : Nat) (nvs : NVS) (s : Estado) :
    (persistirTotales t nvs s).1.b1_prev_on = s.b1_prev_on ∧
    (persistirTotales t nvs s).1.b2_prev_on = s.b2_prev_on ∧
    (persistirTotales t nvs s).1.ultima_bomba_on = s.ultima_bomba_on ∧
    (persistirTotales t nvs s).1.ultimoUpdateContadores = s.ultimoUpdateContadores ∧
    (persistirTotales t nvs s).1.bomba1_ON = s.bomba1_ON ∧
    (persistirTotales t nvs s).1.bomba2_ON = s.bomba2_ON ∧
    (persistirTotales t nvs s).1.tiempoB1_ms = s.tiempoB1_ms ∧
    (persistirTotales t nvs s).1.tiempoB2_ms = s.tiempoB2_ms := by
  unfold persistirTotales
  split_ifs <;> simp

/-- What an output update remembers for the next one: the pump flags it saw, the
pump that was active and the time of the update; the flags themselves are kept. -/
theorem actualizarSalidas_recuerda (t : Nat) (nvs : NVS) (s : Estado) :
    (actualizarSalidas t nvs s).1.b1_prev_on = s.bomba1_ON ∧
    (actualizarSalidas t nvs s).1.b2_prev_on = s.bomba2_ON ∧
    (actualizarSalidas t nvs s).1.ultima_bomba_on
      = (if s.bomba1_ON = true then 1 else if s.bomba2_ON = true then 2 else 0) ∧
    (actualizarSalidas t nvs s).1.ultimoUpdateContadores = t ∧
    (actualizarSalidas t nvs s).1.bomba1_ON = s.bomba1_ON ∧
    (actualizarSalidas t nvs s).1.bomba2_ON = s.bomba2_ON := by
  rw [actualizarSalidas_etapas]
  obtain ⟨p1, p2, p3, p4, p5, p6, -, -⟩ := persistirTotales_campos t nvs
    (acumularTiempos t (if s.bomba1_ON then 1 else if s.bomba2_ON then 2 else 0)
      (aplicarReset (!s.b1_prev_on && s.bomba1_ON) (!s.b2_prev_on && s.bomba2_ON)
        (marcarReset (if s.bomba1_ON then 1 else if s.bomba2_ON then 2 else 0) s)))
  obtain ⟨a1, a2, a3, a4, a5, a6, -, -⟩ := acumularTiempos_campos t
    (if s.bomba1_ON then 1 else if s.bomba2_ON then 2 else 0)
    (aplicarReset (!s.b1_prev_on && s.bomba1_ON) (!s.b2_prev_on && s.bomba2_ON)
      (marcarReset (if s.bomba1_ON then 1 else if s.bomba2_ON then 2 else 0) s))
  obtain ⟨r1, r2, -⟩ := aplicarReset_campos (!s.b1_prev_on && s.bomba1_ON)
    (!s.b2_prev_on && s.bomba2_ON)
    (marcarReset (if s.bomba1_ON then 1 else if s.bomba2_ON then 2 else 0) s)
  obtain ⟨m1, m2, -, -, -⟩ :=
    marcarReset_campos (if s.bomba1_ON then 1 else if s.bomba2_ON then 2 else 0) s
  refine ⟨?_, ?_, ?_, ?_, ?_, ?_⟩
  · rw [p1, a1, r1, m1]
  · rw [p2, a2, r2, m2]
  · rw [p3, a3]
  · rw [p4, a4]
  · rw [p5, a5, r1, m1]
  · rw [p6, a6, r2, m2]

/-- An output update that sees pump 2 on after pump 1 was the active pump zeroes
the run time of pump 2 before adding the elapsed time, and keeps that of pump 1. -/
theorem actualizarSalidas_flanco_b2 (t : Nat) (nvs : NVS) (s : Estado)
    (h1 : s.bomba1_ON = false) (h2 : s.bomba2_ON = true)
    (hu : s.ultima_bomba_on = 1) (hp : s.b2_prev_on = false) :
    (actualizarSalidas t nvs s).1.tiempoB2_ms = restaU32 t s.ultimoUpdateContadores ∧
    (actualizarSalidas t nvs s).1.tiempoB1_ms = s.tiempoB1_ms := by
  have hlt := restaU32_lt t s.ultimoUpdateContadores
  rw [actualizarSalidas_etapas]
  obtain ⟨-, -, -, -, -, -, p7, p8⟩ := persistirTotales_campos t nvs
    (acumularTiempos t (if s.bomba1_ON then 1 else if s.bomba2_ON then 2 else 0)
      (aplicarReset (!s.b1_prev_on && s.bomba1_ON) (!s.b2_prev_on && s.bomba2_ON)
        (marcarReset (if s.bomba1_ON then 1 else if s.bomba2_ON then 2 else 0) s)))
  rw [p7, p8]
  have hm : marcarReset 2 s
      = { s with parcial_reset_pendiente := true, bomba_objetivo_alternancia := 2 } := by
    simp [marcarReset, hu]
  simp only [h1, h2, hp, Bool.false_eq_true, if_false, if_true, Bool.not_false, Bool.and_true,
    Bool.and_false, hm]
  simp [acumularTiempos, aplicarReset, h1, h2, Nat.mod_eq_of_lt hlt]

/-- An output update that sees pump 1 on after pump 2 was the active pump zeroes
the run time of pump 1 before adding the elapsed time, and keeps that of pump 2. -/
theorem actualizarSalidas_flanco_b1 (t : Nat) (nvs : NVS) (s : Estado)
    (h1 : s.bomba1_ON = true) (h2 : s.bomba2_ON = false)
    (hu : s.ultima_bomba_on = 2) (hp : s.b1_prev_on = false) :
    (actualizarSalidas t nvs s).1.tiempoB1_ms = restaU32 t s.ultimoUpdateContadores ∧
    (actualizarSalidas t nvs s).1.tiempoB2_ms = s.tiempoB2_ms := by
  have hlt := restaU32_lt t s.ultimoUpdateContadores
  rw [actualizarSalidas_etapas]
  obtain ⟨-, -, -, -, -, -, p7, p8⟩ := persistirTotales_campos t nvs
    (acumularTiempos t (if s.bomba1_ON then 1 else if s.bomba2_ON then 2 else 0)
      (aplicarReset (!s.b1_prev_on && s.bomba1_ON) (!s.b2_prev_on && s.bomba2_ON)
        (marcarReset (if s.bomba1_ON then 1 else if s.bomba2_ON then 2 else 0) s)))
  rw [p7, p8]
  have hm : marcarReset 1 s
      = { s with parcial_reset_pendiente := true, bomba_objetivo_alternancia := 1 } := by
    simp [marcarReset, hu]
  simp only [h1, h2, hp, Bool.false_eq_true, if_false, if_true, Bool.not_false, Bool.and_true,
    Bool.and_false, hm]
  simp [acumularTiempos, aplicarReset, h1, h2, Nat.mod_eq_of_lt hlt]

/-- An output update that sees the pump flags of the previous update resets no
run time: each one grows by the elapsed time when its pump is on. -/
theorem actualizarSalidas_sin_flanco (t : Nat) (nvs : NVS) (s : Estado)
    (hp1 : s.b1_prev_on = s.bomba1_ON) (hp2 : s.b2_prev_on = s.bomba2_ON) :
    (actualizarSalidas t nvs s).1.tiempoB1_ms
      = (if s.bomba1_ON = true then
          (s.tiempoB1_ms + restaU32 t s.ultimoUpdateContadores) % ULONG_MOD
         else s.tiempoB1_ms) ∧
    (actualizarSalidas t nvs s).1.tiempoB2_ms
      = (if s.bomba2_ON = true then
          (s.tiempoB2_ms + restaU32 t s.ultimoUpdateContadores) % ULONG_MOD
         else s.tiempoB2_ms) := by
  rw [actualizarSalidas_etapas]
  obtain ⟨-, -, -, -, -, -, p7, p8⟩ := persistirTotales_campos t nvs
    (acumularTiempos t (if s.bomba1_ON then 1 else if s.bomba2_ON then 2 else 0)
      (aplicarReset (!s.b1_prev_on && s.bomba1_ON) (!s.b2_prev_on && s.bomba2_ON)
        (marcarReset (if s.bomba1_ON then 1 else if s.bomba2_ON then 2 else 0) s)))
  rw [p7, p8]
  have hf1 : (!s.b1_prev_on && s.bomba1_ON) = false := by rw [hp1]; cases s.bomba1_ON <;> rfl
  have hf2 : (!s.b2_prev_on && s.bomba2_ON) = false := by rw [hp2]; cases s.bomba2_ON <;> rfl
  rw [hf1, hf2]
  obtain ⟨-, -, -, -, -, -, a7, a8⟩ := acumularTiempos_campos t
    (if s.bomba1_ON then 1 else if s.bomba2_ON then 2 else 0)
    (aplicarReset false false
      (marcarReset (if s.bomba1_ON then 1 else if s.bomba2_ON then 2 else 0) s))
  obtain ⟨r1, r2, r3⟩ := aplicarReset_campos false false
    (marcarReset (if s.bomba1_ON then 1 else if s.bomba2_ON then 2 else 0) s)
  obtain ⟨n1, n2⟩ := aplicarReset_sin_flanco
    (marcarReset (if s.bomba1_ON then 1 else if s.bomba2_ON then 2 else 0) s)
  obtain ⟨m1, m2, m3, m4, m5⟩ :=
    marcarReset_campos (if s.bomba1_ON then 1 else if s.bomba2_ON then 2 else 0) s
  rw [a7, a8, r1, r2, r3, n1, n2, m1, m2, m3, m4, m5]
  exact ⟨rfl, rfl⟩

/-- Reading an unsigned 16-bit key after an unsigned 16-bit write. -/
theorem getUShort_putUShort (nvs : NVS) (k k2 : String) (v d : Nat) :
    (nvs.putUShort k v).getUShort k2 d = if k2 = k then v else nvs.getUShort k2 d := by
  unfold NVS.getUShort NVS.putUShort
  split_ifs <;> rfl

/-- Reading an unsigned 16-bit key after a signed 16-bit write. -/
theorem getUShort_putShort (nvs : NVS) (k k2 : String) (v : Int) (d : Nat) :
    (nvs.putShort k v).getUShort k2 d = if k2 = k then d else nvs.getUShort k2 d := by
  unfold NVS.getUShort NVS.putShort
  split_ifs <;> rfl

/-- Reading a signed 16-bit key after a signed 16-bit write. -/
theorem getShort_putShort (nvs : NVS) (k k2 : String) (v d : Int) :
    (nvs.putShort k v).getShort k2 d = if k2 = k then v else nvs.getShort k2 d := by
  unfold NVS.getShort NVS.putShort
  split_ifs <;> rfl

/-- Reading a signed 16-bit key after an unsigned 16-bit write. -/
theorem getShort_putUShort (nvs : NVS) (k k2 : String) (v : Nat) (d : Int) :
    (nvs.putUShort k v).getShort k2 d = if k2 = k then d else nvs.getShort k2 d := by
  unfold NVS.getShort NVS.putUShort
  split_ifs <;> rfl

/-- The twelve register numbers. -/
theorem registros :
    MB_REG_ALT_HOURS = 0 ∧ MB_REG_PUMP_STOP_DELAY = 1 ∧ MB_REG_GT_TMIN = 2 ∧
    MB_REG_GT_TMAX = 3 ∧ MB_REG_GT_SENSOR_MODE = 4 ∧ MB_REG_GT_TFIXED = 5 ∧
    MB_REG_SCHED_ENABLE = 6 ∧ MB_REG_SCHED_M_ON = 100 ∧ MB_REG_SCHED_M_OFF = 101 ∧
    MB_REG_SCHED_T_ON = 102 ∧ MB_REG_SCHED_T_OFF = 103 ∧ MB_REG_SCHED_DOW_MASK = 104 :=
  ⟨rfl, rfl, rfl, rfl, rfl, rfl, rfl, rfl, rfl, rfl, rfl, rfl⟩

/-- The state after the four cycles of `trasRelevo`, field by field. -/
theorem trasRelevo_eq :
    trasRelevo.1 =
      { estadoInicial with
        bomba2_ON := true, grupoTermico_ON := true,
        tiempoB1_ms := 3600000, tiempoB2_ms := 3600100,
        tiempoB1_total_ms := 3600000, tiempoB2_total_ms := 3600100,
        ultimoUpdateContadores := 7200100, b2_prev_on := true,
        bomba_objetivo_alternancia := 2, ultima_bomba_on := 2, lastPersist := 7200100 } := by
  simp [trasRelevo, cicloControl, actualizarSalidas, ejecutarLogicaControl, gestionarAlternancia,
    controlarTemperaturaGT, verificarHorario, cfgAlt1, cfgDefecto, entNormalEn, entNormal,
    pinesNormal, estadoInicial, isALARMA, isON, bomba1_disponible, bomba2_disponible,
    restaU32, ULONG_MOD]
  norm_num

/-- A value read with itself as default is the value read. -/
theorem getUShort_estable (nvs : NVS) (k : String) (d : Nat) :
    nvs.getUShort k (nvs.getUShort k d) = nvs.getUShort k d := by
  unfold NVS.getUShort
  split <;> simp_all

/-- A signed value read with itself as default is the value read. -/
theorem getShort_estable (nvs : NVS) (k : String) (d : Int) :
    nvs.getShort k (nvs.getShort k d) = nvs.getShort k d := by
  unfold NVS.getShort
  split <;> simp_all

/-- The total counters through an output update: each grows by the elapsed time,
modulo `2 ^ 32`, when its pump is on, and is kept otherwise. -/
theorem actualizarSalidas_totales (t : Nat) (nvs : NVS) (s : Estado) :
    (actualizarSalidas t nvs s).1.tiempoB1_total_ms
      = (if s.bomba1_ON = true then
          (s.tiempoB1_total_ms + restaU32 t s.ultimoUpdateContadores) % ULONG_MOD
         else s.tiempoB1_total_ms) ∧
    (actualizarSalidas t nvs s).1.tiempoB2_total_ms
      = (if s.bomba2_ON = true then
          (s.tiempoB2_total_ms + restaU32 t s.ultimoUpdateContadores) % ULONG_MOD
         else s.tiempoB2_total_ms) := by
  rw [actualizarSalidas_etapas]
  have hm : ∀ a : Nat,
      (marcarReset a s).tiempoB1_total_ms = s.tiempoB1_total_ms ∧
      (marcarReset a s).tiempoB2_total_ms = s.tiempoB2_total_ms := by
    intro a
    unfold marcarReset
    split_ifs <;> simp
  have hr : ∀ (f1 f2 : Bool) (x : Estado),
      (aplicarReset f1 f2 x).tiempoB1_total_ms = x.tiempoB1_total_ms ∧
      (aplicarReset f1 f2 x).tiempoB2_total_ms = x.tiempoB2_total_ms := by
    intro f1 f2 x
    unfold aplicarReset
    simp only []
    split_ifs <;> simp
  have ha : ∀ (a : Nat) (x : Estado),
      (acumularTiempos t a x).tiempoB1_total_ms
        = (if x.bomba1_ON = true then
            (x.tiempoB1_total_ms + restaU32 t x.ultimoUpdateContadores) % ULONG_MOD
           else x.tiempoB1_total_ms) ∧
      (acumularTiempos t a x).tiempoB2_total_ms
        = (if x.bomba2_ON = true then
            (x.tiempoB2_total_ms + restaU32 t x.ultimoUpdateContadores) % ULONG_MOD
           else x.tiempoB2_total_ms) := by
    intro a x
    unfold acumularTiempos
    cases h1 : x.bomba1_ON <;> cases h2 : x.bomba2_ON <;> simp [h1, h2]
  have hp : ∀ x : Estado,
      (persistirTotales t nvs x).1.tiempoB1_total_ms = x.tiempoB1_total_ms ∧
      (persistirTotales t nvs x).1.tiempoB2_total_ms = x.tiempoB2_total_ms := by
    intro x
    unfold persistirTotales
    split_ifs <;> simp
  obtain ⟨r1, r2, r3⟩ := aplicarReset_campos (!s.b1_prev_on && s.bomba1_ON)
    (!s.b2_prev_on && s.bomba2_ON)
    (marcarReset (if s.bomba1_ON then 1 else if s.bomba2_ON then 2 else 0) s)
  obtain ⟨m1, m2, -, -, m5⟩ :=
    marcarReset_campos (if s.bomba1_ON then 1 else if s.bomba2_ON then 2 else 0) s
  rw [(hp _).1, (hp _).2, (ha _ _).1, (ha _ _).2, r1, r2, r3, (hr _ _ _).1, (hr _ _ _).2,
    m1, m2, m5, (hm _).1, (hm _).2]
  exact ⟨rfl, rfl⟩

/-- The temperature before clamping is the raw sample scaled by 100 / 4095. -/
theorem leerTemperaturaNTC_eq (raw : Int) :
    leerTemperaturaNTC raw = constrain ((raw : ℚ) * 100 / 4095) 0 100 := by
  unfold leerTemperaturaNTC
  simp only []
  congr 1
  field_simp
  ring

/-- Clamping to the range 0..100 is monotone. -/
theorem constrain_mono (x y : ℚ) (h : x ≤ y) : constrain x 0 100 ≤ constrain y 0 100 := by
  unfold constrain
  split_ifs <;> linarith

/-- The alternation writes only the two pump flags. -/
theorem gestionarAlternancia_otros (cfg : Config) (err1 err2 : Bool) (s : Estado) :
    (gestionarAlternancia cfg err1 err2 s).bombaCondensacion_ON = s.bombaCondensacion_ON ∧
    (gestionarAlternancia cfg err1 err2 s).postCirculacion_ON = s.postCirculacion_ON := by
  unfold gestionarAlternancia
  simp only []
  split_ifs <;> simp

/-- A control tick without emergency never switches the condensation pump off. -/
theorem ejecutarLogicaControl_condensacion (cfg : Config) (e : Entorno) (s : Estado)
    (h : s.bombaCondensacion_ON = true)
    (hEm : isALARMA e.pines.PIN_EMERGENCIA = false) :
    (ejecutarLogicaControl cfg e s).bombaCondensacion_ON = true := by
  have hi := (iniciarPostCirculacion_salidas e.pines e.millis s).2.2.2.1
  have hg := (gestionarAlternancia_otros cfg (isALARMA e.pines.PIN_RT1)
    (isALARMA e.pines.PIN_RT2) { s with postCirculacion_ON := false }).1
  unfold ejecutarLogicaControl
  simp only []
  split_ifs <;> simp_all [(controlarTemperaturaGT_bombas _ _ _).2.2.1]

/-- A control tick keeps the post-circulation indicator off. -/
theorem ejecutarLogicaControl_indicador (cfg : Config) (e : Entorno) (s : Estado)
    (h : s.postCirculacion_ON = false) :
    (ejecutarLogicaControl cfg e s).postCirculacion_ON = false := by
  have hi := (iniciarPostCirculacion_salidas e.pines e.millis s).2.2.2.2
  have hg := (gestionarAlternancia_otros cfg (isALARMA e.pines.PIN_RT1)
    (isALARMA e.pines.PIN_RT2) { s with postCirculacion_ON := false }).2
  unfold ejecutarLogicaControl
  simp only []
  split_ifs <;> simp_all [(controlarTemperaturaGT_bombas _ _ _).2.2.2]

/-- With the indicator off, a tick that takes a stop branch ends with both
pumps off. -/
theorem ejecutarLogicaControl_parada (cfg : Config) (e : Entorno) (s : Estado)
    (h : s.postCirculacion_ON = false)
    (hEm : isALARMA e.pines.PIN_EMERGENCIA = false)
    (hStop : isON e.pines.PIN_SYS_ONOFF = false ∨
      (¬ (isALARMA e.pines.PIN_RT1 = true ∧ isALARMA e.pines.PIN_RT2 = true) ∧
        (isON e.pines.PIN_JEFATURA = false ∨
          (isON e.pines.PIN_PROG_SEL = true ∧ verificarHorario cfg e.hora = false)))) :
    (ejecutarLogicaControl cfg e s).bomba1_ON = false ∧
    (ejecutarLogicaControl cfg e s).bomba2_ON = false := by
  have hi := (iniciarPostCirculacion_salidas e.pines e.millis s).2.2.2.2
  cases hS : isON e.pines.PIN_SYS_ONOFF
  · cases hG : s.grupoTermico_ON <;>
      simp [ejecutarLogicaControl, hEm, hS, hG, hi, h]
  · rcases hStop with hs | ⟨hn, hj | ⟨hp, hv⟩⟩
    · rw [hS] at hs
      cases hs
    · cases hG : s.grupoTermico_ON <;>
        simp [ejecutarLogicaControl, hEm, hS, hn, hj, hG, hi, h]
    · cases hJ : isON e.pines.PIN_JEFATURA <;> cases hG : s.grupoTermico_ON <;>
        simp [ejecutarLogicaControl, hEm, hS, hn, hJ, hp, hv, hG, hi, h]

/-- The state after the fail-safe tick that follows the running state. -/
theorem estadoCondensacion_eq :
    estadoCondensacion = { estadoInicial with bombaCondensacion_ON := true } := by
  rw [estadoCondensacion, estadoEnMarcha_eq]
  simp [ejecutarLogicaControl, entSinBombas, entNormal, pinesNormal, estadoInicial, isALARMA,
    isON, bomba1_disponible, bomba2_disponible, verificarHorario, cfgDefecto]

/-- No event switches the post-circulation indicator on. -/
theorem ejecutarEvento_indicador (s : Estado) (ev : Evento)
    (h : s.postCirculacion_ON = false) :
    (ejecutarEvento s ev).postCirculacion_ON = false := by
  cases ev with
  | tick p =>
    exact ejecutarLogicaControl_indicador p.cfg p.ent _ h
  | disparo p ahora =>
    have hi := (iniciarPostCirculacion_salidas p ahora s).2.2.2.2
    simp only [ejecutarEvento]
    rw [hi, h]
  | temporizador cfg ahora =>
    simp only [ejecutarEvento, actualizarBombasEnPostCirc]
    split_ifs <;> simp [h]

/-- From a state with the indicator off, no sequence of events switches it on. -/
theorem ejecutarEventos_indicador (evs : List Evento) (s : Estado)
    (h : s.postCirculacion_ON = false) :
    (ejecutarEventos s evs).postCirculacion_ON = false := by
  induction evs generalizing s with
  | nil => simpa [ejecutarEventos] using h
  | cons ev evs ih =>
    have h1 := ejecutarEvento_indicador s ev h
    simpa [ejecutarEventos] using ih (ejecutarEvento s ev) h1

/-- A register write keeps the parameters in memory equal to what a load of the
store over the defaults `cfg0` gives. -/
theorem escritura_conserva_carga (cfg0 cfg : Config) (nvs : NVS) (s : Estado) (reg v : Nat)
    (h : (loadAllSettingsFromNVS nvs cfg0 s).1 = cfg) :
    (loadAllSettingsFromNVS (updateInternalVariableFromModbus reg v cfg nvs).2 cfg0 s).1
      = (updateInternalVariableFromModbus reg v cfg nvs).1 := by
  have e0 : nvs.getUShort "alt" cfg0.cfg_alternanciaHoras = cfg.cfg_alternanciaHoras :=
    congrArg Config.cfg_alternanciaHoras h
  have e1 : nvs.getUShort "post" cfg0.cfg_postCirculacionSeg = cfg.cfg_postCirculacionSeg :=
    congrArg Config.cfg_postCirculacionSeg h
  have e2 : nvs.getShort "tmin" cfg0.cfg_tempMinGT_x10 = cfg.cfg_tempMinGT_x10 :=
    congrArg Config.cfg_tempMinGT_x10 h
  have e3 : nvs.getShort "tmax" cfg0.cfg_tempMaxGT_x10 = cfg.cfg_tempMaxGT_x10 :=
    congrArg Config.cfg_tempMaxGT_x10 h
  have e4 : nvs.getUShort "mode" cfg0.cfg_sensorMode = cfg.cfg_sensorMode :=
    congrArg Config.cfg_sensorMode h
  have e5 : nvs.getShort "tfix" cfg0.cfg_tempFijaGT_x10 = cfg.cfg_tempFijaGT_x10 :=
    congrArg Config.cfg_tempFijaGT_x10 h
  have e6 : nvs.getUShort "sch_en" cfg0.cfg_schedEnable = cfg.cfg_schedEnable :=
    congrArg Config.cfg_schedEnable h
  have e7 : nvs.getUShort "m_on" cfg0.cfg_schedMananaON = cfg.cfg_schedMananaON :=
    congrArg Config.cfg_schedMananaON h
  have e8 : nvs.getUShort "m_off" cfg0.cfg_schedMananaOFF = cfg.cfg_schedMananaOFF :=
    congrArg Config.cfg_schedMananaOFF h
  have e9 : nvs.getUShort "t_on" cfg0.cfg_schedTardeON = cfg.cfg_schedTardeON :=
    congrArg Config.cfg_schedTardeON h
  have e10 : nvs.getUShort "t_off" cfg0.cfg_schedTardeOFF = cfg.cfg_schedTardeOFF :=
    congrArg Config.cfg_schedTardeOFF h
  have e11 : nvs.getUShort "mask" cfg0.cfg_schedDiasMask = cfg.cfg_schedDiasMask :=
    congrArg Config.cfg_schedDiasMask h
  by_cases c0 : reg = 0
  · subst c0
    simp [updateInternalVariableFromModbus, registros, loadAllSettingsFromNVS,
      getUShort_putUShort, getUShort_putShort, getShort_putShort, getShort_putUShort,
      e0, e1, e2, e3, e4, e5, e6, e7, e8, e9, e10, e11]
  by_cases c1 : reg = 1
  · subst c1
    simp [updateInternalVariableFromModbus, registros, loadAllSettingsFromNVS,
      getUShort_putUShort, getUShort_putShort, getShort_putShort, getShort_putUShort,
      e0, e1, e2, e3, e4, e5, e6, e7, e8, e9, e10, e11]
  by_cases c2 : reg = 2
  · subst c2
    simp [updateInternalVariableFromModbus, registros, loadAllSettingsFromNVS,
      getUShort_putUShort, getUShort_putShort, getShort_putShort, getShort_putUShort,
      e0, e1, e2, e3, e4, e5, e6, e7, e8, e9, e10, e11]
  by_cases c3 : reg = 3
  · subst c3
    simp [updateInternalVariableFromModbus, registros, loadAllSettingsFromNVS,
      getUShort_putUShort, getUShort_putShort, getShort_putShort, getShort_putUShort,
      e0, e1, e2, e3, e4, e5, e6, e7, e8, e9, e10, e11]
  by_cases c4 : reg = 4
  · subst c4
    simp [updateInternalVariableFromModbus, registros, loadAllSettingsFromNVS,
      getUShort_putUShort, getUShort_putShort, getShort_putShort, getShort_putUShort,
      e0, e1, e2, e3, e4, e5, e6, e7, e8, e9, e10, e11]
  by_cases c5 : reg = 5
  · subst c5
    simp [updateInternalVariableFromModbus, registros, loadAllSettingsFromNVS,
      getUShort_putUShort, getUShort_putShort, getShort_putShort, getShort_putUShort,
      e0, e1, e2, e3, e4, e5, e6, e7, e8, e9, e10, e11]
  by_cases c6 : reg = 6
  · subst c6
    simp [updateInternalVariableFromModbus, registros, loadAllSettingsFromNVS,
      getUShort_putUShort, getUShort_putShort, getShort_putShort, getShort_putUShort,
      e0, e1, e2, e3, e4, e5, e6, e7, e8, e9, e10, e11]
  by_cases c7 : reg = 100
  · subst c7
    simp [updateInternalVariableFromModbus, registros, loadAllSettingsFromNVS,
      getUShort_putUShort, getUShort_putShort, getShort_putShort, getShort_putUShort,
      e0, e1, e2, e3, e4, e5, e6, e7, e8, e9, e10, e11]
  by_cases c8 : reg = 101
  · subst c8
    simp [updateInternalVariableFromModbus, registros, loadAllSettingsFromNVS,
      getUShort_putUShort, getUShort_putShort, getShort_putShort, getShort_putUShort,
      e0, e1, e2, e3, e4, e5, e6, e7, e8, e9, e10, e11]
  by_cases c9 : reg = 102
  · subst c9
    simp [updateInternalVariableFromModbus, registros, loadAllSettingsFromNVS,
      getUShort_putUShort, getUShort_putShort, getShort_putShort, getShort_putUShort,
      e0, e1, e2, e3, e4, e5, e6, e7, e8, e9, e10, e11]
  by_cases c10 : reg = 103
  · subst c10
    simp [updateInternalVariableFromModbus, registros, loadAllSettingsFromNVS,
      getUShort_putUShort, getUShort_putShort, getShort_putShort, getShort_putUShort,
      e0, e1, e2, e3, e4, e5, e6, e7, e8, e9, e10, e11]
  by_cases c11 : reg = 104
  · subst c11
    simp [updateInternalVariableFromModbus, registros, loadAllSettingsFromNVS,
      getUShort_putUShort, getUShort_putShort, getShort_putShort, getShort_putUShort,
      e0, e1, e2, e3, e4, e5, e6, e7, e8, e9, e10, e11]
  have hU : updateInternalVariableFromModbus reg v cfg nvs = (cfg, nvs) := by
    simp [updateInternalVariableFromModbus, registros, c0, c1, c2, c3, c4, c5, c6, c7, c8, c9,
      c10, c11]
  rw [hU]
  exact h

/-- Any sequence of register writes keeps the parameters in memory equal to
what a load of the store over the defaults `cfg0` gives. -/
theorem escribirRegistros_conserva_carga (cfg0 : Config) (s : Estado)
    (ws : List (Nat × Nat)) (x : Config × NVS)
    (h : (loadAllSettingsFromNVS x.2 cfg0 s).1 = x.1) :
    (loadAllSettingsFromNVS (escribirRegistros ws x).2 cfg0 s).1
      = (escribirRegistros ws x).1 := by
  induction ws generalizing x with
  | nil => simpa [escribirRegistros] using h
  | cons w ws ih =>
    have h1 := escritura_conserva_carga cfg0 x.1 x.2 s w.1 w.2 h
    simpa [escribirRegistros] using
      ih (updateInternalVariableFromModbus w.1 w.2 x.1 x.2) h1

/-- When the parameters in memory are what a load over some defaults gives, a
load over the parameters themselves returns them. -/
theorem carga_en_sitio (cfg0 cfg : Config) (nvs : NVS) (s s2 : Estado)
    (h : (loadAllSettingsFromNVS nvs cfg0 s).1 = cfg) :
    (loadAllSettingsFromNVS nvs cfg s2).1 = cfg := by
  subst h
  simp [loadAllSettingsFromNVS, getUShort_estable, getShort_estable]

/-! ## Claims about the control arbiter -/

/-- C1: starting from the initial state, after any finite sequence of control
ticks with arbitrary inputs, parameters and run-time counters, `bomba1_ON` and
`bomba2_ON` are never both true. -/
theorem C1_exclusion_mutua_bombas (ps : List Paso) :
    ¬ ((ejecutarPasos estadoInicial ps).bomba1_ON = true ∧
       (ejecutarPasos estadoInicial ps).bomba2_ON = true) := by
  have gen : ∀ (qs : List Paso) (s : Estado),
      ¬ (s.bomba1_ON = true ∧ s.bomba2_ON = true) →
      ¬ ((ejecutarPasos s qs).bomba1_ON = true ∧ (ejecutarPasos s qs).bomba2_ON = true) := by
    intro qs
    induction qs with
    | nil => intro s hs; simpa [ejecutarPasos] using hs
    | cons q qs ih =>
      intro s hs
      have hq : ¬ ((ejecutarPaso s q).bomba1_ON = true ∧ (ejecutarPaso s q).bomba2_ON = true) :=
        ejecutarLogicaControl_exclusion q.cfg q.ent _ hs
      simpa [ejecutarPasos] using ih (ejecutarPaso s q) hq
  exact gen ps estadoInicial (by simp [estadoInicial])

/-- C2: a control tick with the emergency input asserted ends with all five
actuator flags false, whatever the prior state and the other inputs. -/
theorem C2_emergencia_apaga_todo (cfg : Config) (e : Entorno) (s : Estado)
    (h : isALARMA e.pines.PIN_EMERGENCIA = true) :
    (ejecutarLogicaControl cfg e s).bomba1_ON = false ∧
    (ejecutarLogicaControl cfg e s).bomba2_ON = false ∧
    (ejecutarLogicaControl cfg e s).grupoTermico_ON = false ∧
    (ejecutarLogicaControl cfg e s).bombaCondensacion_ON = false ∧
    (ejecutarLogicaControl cfg e s).postCirculacion_ON = false := by
  simp [ejecutarLogicaControl, h]

/-- Witness of C2: with pump 1 and the thermal group running, an emergency tick
switches every actuator off. -/
theorem C2_emergencia_apaga_todo_witness :
    estadoEnMarcha.bomba1_ON = true ∧ estadoEnMarcha.grupoTermico_ON = true ∧
    (ejecutarLogicaControl cfgDefecto entEmergencia estadoEnMarcha).bomba1_ON = false ∧
    (ejecutarLogicaControl cfgDefecto entEmergencia estadoEnMarcha).bomba2_ON = false ∧
    (ejecutarLogicaControl cfgDefecto entEmergencia estadoEnMarcha).grupoTermico_ON = false ∧
    (ejecutarLogicaControl cfgDefecto entEmergencia estadoEnMarcha).bombaCondensacion_ON = false ∧
    (ejecutarLogicaControl cfgDefecto entEmergencia estadoEnMarcha).postCirculacion_ON = false :=
  ⟨by rw [estadoEnMarcha_eq], by rw [estadoEnMarcha_eq],
    C2_emergencia_apaga_todo cfgDefecto entEmergencia estadoEnMarcha (by decide)⟩

/-- C3 (as stated, refuted): with both thermal-relay faults asserted the tick
does not always switch the condensation pump on. With the system switch off it
stays off (from the initial state), and with the emergency input asserted it is
switched off even if it was on. -/
theorem C3_doble_averia_counterexample :
    (isALARMA entDobleAveriaSistemaOff.pines.PIN_RT1 = true ∧
     isALARMA entDobleAveriaSistemaOff.pines.PIN_RT2 = true ∧
     (ejecutarLogicaControl cfgDefecto entDobleAveriaSistemaOff
        estadoInicial).bombaCondensacion_ON = false) ∧
    (isALARMA entDobleAveriaEmergencia.pines.PIN_RT1 = true ∧
     isALARMA entDobleAveriaEmergencia.pines.PIN_RT2 = true ∧
     (ejecutarLogicaControl cfgDefecto entDobleAveriaEmergencia
        { estadoInicial with bombaCondensacion_ON := true }).bombaCondensacion_ON = false) := by
  refine ⟨⟨by decide, by decide, ?_⟩, ⟨by decide, by decide, ?_⟩⟩
  · simp [ejecutarLogicaControl, entDobleAveriaSistemaOff, entNormal, pinesNormal,
      estadoInicial, isALARMA, isON]
  · simp [ejecutarLogicaControl, entDobleAveriaEmergencia, entNormal, pinesNormal, isALARMA]

/-- C3 (amended): for every prior state, a control tick with no emergency, the
system switch on and both thermal-relay faults asserted ends with
`bombaCondensacion_ON` true and `bomba1_ON`, `bomba2_ON`, `grupoTermico_ON` false. -/
theorem C3_doble_averia_condensacion (cfg : Config) (e : Entorno) (s : Estado)
    (hEm : isALARMA e.pines.PIN_EMERGENCIA = false)
    (hSys : isON e.pines.PIN_SYS_ONOFF = true)
    (h1 : isALARMA e.pines.PIN_RT1 = true)
    (h2 : isALARMA e.pines.PIN_RT2 = true) :
    (ejecutarLogicaControl cfg e s).bombaCondensacion_ON = true ∧
    (ejecutarLogicaControl cfg e s).bomba1_ON = false ∧
    (ejecutarLogicaControl cfg e s).bomba2_ON = false ∧
    (ejecutarLogicaControl cfg e s).grupoTermico_ON = false := by
  simp [ejecutarLogicaControl, hEm, hSys, h1, h2]

/-- Witness of C3 (amended): from the running state, a double fault with the
system on stops pump 1 and the thermal group and starts the condensation pump. -/
theorem C3_doble_averia_condensacion_witness :
    estadoEnMarcha.bomba1_ON = true ∧ estadoEnMarcha.bombaCondensacion_ON = false ∧
    (ejecutarLogicaControl cfgDefecto entDobleAveria estadoEnMarcha).bombaCondensacion_ON = true ∧
    (ejecutarLogicaControl cfgDefecto entDobleAveria estadoEnMarcha).bomba1_ON = false ∧
    (ejecutarLogicaControl cfgDefecto entDobleAveria estadoEnMarcha).bomba2_ON = false ∧
    (ejecutarLogicaControl cfgDefecto entDobleAveria estadoEnMarcha).grupoTermico_ON = false :=
  ⟨by rw [estadoEnMarcha_eq], by rw [estadoEnMarcha_eq]; rfl,
    C3_doble_averia_condensacion cfgDefecto entDobleAveria estadoEnMarcha
      (by decide) (by decide) (by decide) (by decide)⟩

/-- C4: after a control tick, `grupoTermico_ON` true implies that `bomba1_ON`
or `bomba2_ON` is true, for every prior state, parameters, temperature and inputs. -/
theorem C4_grupo_termico_requiere_bomba (cfg : Config) (e : Entorno) (s : Estado)
    (h : (ejecutarLogicaControl cfg e s).grupoTermico_ON = true) :
    (ejecutarLogicaControl cfg e s).bomba1_ON = true ∨
    (ejecutarLogicaControl cfg e s).bomba2_ON = true := by
  unfold ejecutarLogicaControl at h ⊢
  simp only [] at h ⊢
  split_ifs at h ⊢ <;>
    simp_all [(controlarTemperaturaGT_bombas _ _ _).1, (controlarTemperaturaGT_bombas _ _ _).2.1]

/-- Witness of C4: the first normal tick with a cold boiler energizes the
thermal group, and pump 1 is running. -/
theorem C4_grupo_termico_requiere_bomba_witness :
    (ejecutarLogicaControl cfgDefecto entNormal estadoInicial).grupoTermico_ON = true ∧
    ((ejecutarLogicaControl cfgDefecto entNormal estadoInicial).bomba1_ON = true ∨
     (ejecutarLogicaControl cfgDefecto entNormal estadoInicial).bomba2_ON = true) :=
  have h : (ejecutarLogicaControl cfgDefecto entNormal estadoInicial).grupoTermico_ON = true := by
    have := estadoEnMarcha_eq
    unfold estadoEnMarcha at this
    rw [this]
  ⟨h, C4_grupo_termico_requiere_bomba cfgDefecto entNormal estadoInicial h⟩

/-- C5: from a state with the thermal group on and post-circulation idle, a
tick without emergency in which the system switch is off, or (not both
thermal-relay faults and supervisory off), or (not both faults, supervisory on,
program selector on and the schedule gate denies) ends with
`post_circulacion_activa` true, `post_circulacion_inicio_ms` equal to the
current time and `grupoTermico_ON` false. -/
theorem C5_parada_inicia_post_circulacion (cfg : Config) (e : Entorno) (s : Estado)
    (hGT : s.grupoTermico_ON = true)
    (hIdle : s.post_circulacion_activa = false)
    (hEm : isALARMA e.pines.PIN_EMERGENCIA = false)
    (hStop : isON e.pines.PIN_SYS_ONOFF = false ∨
      (¬ (isALARMA e.pines.PIN_RT1 = true ∧ isALARMA e.pines.PIN_RT2 = true) ∧
        isON e.pines.PIN_JEFATURA = false) ∨
      (¬ (isALARMA e.pines.PIN_RT1 = true ∧ isALARMA e.pines.PIN_RT2 = true) ∧
        isON e.pines.PIN_JEFATURA = true ∧ isON e.pines.PIN_PROG_SEL = true ∧
        verificarHorario cfg e.hora = false)) :
    (ejecutarLogicaControl cfg e s).post_circulacion_activa = true ∧
    (ejecutarLogicaControl cfg e s).post_circulacion_inicio_ms = e.millis ∧
    (ejecutarLogicaControl cfg e s).grupoTermico_ON = false := by
  have hi : (iniciarPostCirculacion e.pines e.millis s).post_circulacion_activa = true ∧
      (iniciarPostCirculacion e.pines e.millis s).post_circulacion_inicio_ms = e.millis := by
    unfold iniciarPostCirculacion
    simp only [hIdle]
    split_ifs <;> simp_all
  obtain ⟨hi1, hi2⟩ := hi
  have hpc := (iniciarPostCirculacion_salidas e.pines e.millis s).2.2.2.2
  cases hS : isON e.pines.PIN_SYS_ONOFF
  · cases hpcs : s.postCirculacion_ON <;>
      simp [ejecutarLogicaControl, hEm, hGT, hS, hpc, hpcs, hi1, hi2]
  · rcases hStop with h | ⟨hn, hj⟩ | ⟨hn, hj, hp, hv⟩
    · rw [hS] at h
      cases h
    · cases hpcs : s.postCirculacion_ON <;>
        simp [ejecutarLogicaControl, hEm, hGT, hS, hn, hj, hpc, hpcs, hi1, hi2]
    · cases hpcs : s.postCirculacion_ON <;>
        simp [ejecutarLogicaControl, hEm, hGT, hS, hn, hj, hp, hv, hpc, hpcs, hi1, hi2]

/-- Witness of C5: switching the system off in the running state at time 5000
starts a post-circulation stamped 5000 and drops the thermal group. -/
theorem C5_parada_inicia_post_circulacion_witness :
    (ejecutarLogicaControl cfgDefecto entSistemaOff estadoEnMarcha).post_circulacion_activa = true ∧
    (ejecutarLogicaControl cfgDefecto entSistemaOff estadoEnMarcha).post_circulacion_inicio_ms
      = entSistemaOff.millis ∧
    (ejecutarLogicaControl cfgDefecto entSistemaOff estadoEnMarcha).grupoTermico_ON = false :=
  C5_parada_inicia_post_circulacion cfgDefecto entSistemaOff estadoEnMarcha
    (by rw [estadoEnMarcha_eq]) (by rw [estadoEnMarcha_eq]; rfl) (by decide)
    (Or.inl (by decide))

/-- C6 (the code at the failing input): with the default duration 10 and a
post-circulation started at 5000 ms, the timer check still holds the
post-circulation at 14999 ms and ends it at 15000 ms, ten SECONDS after the
start, although ten minutes (600000 ms) have not elapsed. -/
theorem C6_post_circulacion_dura_segundos :
    estadoPostCirc.post_circulacion_activa = true ∧
    estadoPostCirc.post_circulacion_inicio_ms = 5000 ∧
    cfgDefecto.cfg_postCirculacionSeg = 10 ∧
    (actualizarBombasEnPostCirc cfgDefecto 14999 estadoPostCirc).post_circulacion_activa = true ∧
    (actualizarBombasEnPostCirc cfgDefecto 15000 estadoPostCirc).post_circulacion_activa = false ∧
    restaU32 15000 5000 < cfgDefecto.cfg_postCirculacionSeg * 60000 := by
  rw [estadoPostCirc_eq]
  simp [actualizarBombasEnPostCirc, restaU32, ULONG_MOD, cfgDefecto, estadoInicial]

/-- C7 (the code at the failing input): switching the system off in the running
state leaves post-circulation active with pump 1 selected as fallback, yet
pump 1 is commanded off and the post-circulation indicator is off. -/
theorem C7_post_circulacion_sin_actuador :
    isALARMA entSistemaOff.pines.PIN_EMERGENCIA = false ∧
    (ejecutarLogicaControl cfgDefecto entSistemaOff estadoEnMarcha).post_circulacion_activa = true ∧
    (ejecutarLogicaControl cfgDefecto entSistemaOff estadoEnMarcha).bomba_post_circulacion = 1 ∧
    (ejecutarLogicaControl cfgDefecto entSistemaOff estadoEnMarcha).bomba1_ON = false ∧
    (ejecutarLogicaControl cfgDefecto entSistemaOff estadoEnMarcha).postCirculacion_ON = false := by
  have h := estadoPostCirc_eq
  unfold estadoPostCirc at h
  rw [h]
  simp [estadoInicial, entSistemaOff, entNormal, pinesNormal, isALARMA]

/-! ## Claims about the thermal regulator and the schedule gate -/

/-- C8: hysteresis of `controlarTemperaturaGT` in exact arithmetic. With the
setpoint `cfg_tempFijaGT_x10 / 10`, the relay becomes true below setpoint - 2,
false above the setpoint, and keeps its previous state otherwise. With setpoint
60.0 and the relay off, the temperatures 57.0, 60.0, 61.0, 58.5 give on, on,
off, off. -/
theorem C8_histeresis_grupo_termico (cfg : Config) (t : ℚ) (s : Estado) :
    (t < (cfg.cfg_tempFijaGT_x10 : ℚ) / 10 - 2 →
      (controlarTemperaturaGT cfg t s).grupoTermico_ON = true) ∧
    (t > (cfg.cfg_tempFijaGT_x10 : ℚ) / 10 →
      (controlarTemperaturaGT cfg t s).grupoTermico_ON = false) ∧
    (¬ t < (cfg.cfg_tempFijaGT_x10 : ℚ) / 10 - 2 → ¬ t > (cfg.cfg_tempFijaGT_x10 : ℚ) / 10 →
      (controlarTemperaturaGT cfg t s).grupoTermico_ON = s.grupoTermico_ON) ∧
    (cfg.cfg_tempFijaGT_x10 = 600 → s.grupoTermico_ON = false →
      (controlarTemperaturaGT cfg 57 s).grupoTermico_ON = true ∧
      (controlarTemperaturaGT cfg 60 (controlarTemperaturaGT cfg 57 s)).grupoTermico_ON = true ∧
      (controlarTemperaturaGT cfg 61 (controlarTemperaturaGT cfg 60
        (controlarTemperaturaGT cfg 57 s))).grupoTermico_ON = false ∧
      (controlarTemperaturaGT cfg (117 / 2) (controlarTemperaturaGT cfg 61
        (controlarTemperaturaGT cfg 60 (controlarTemperaturaGT cfg 57 s)))).grupoTermico_ON
        = false) := by
  refine ⟨?_, ?_, ?_, ?_⟩
  · intro h
    simp [controlarTemperaturaGT, h]
  · intro h
    have h2 : ¬ t < (cfg.cfg_tempFijaGT_x10 : ℚ) / 10 - 2 := by
      intro h3
      linarith
    simp [controlarTemperaturaGT, h, h2]
  · intro h1 h2
    simp [controlarTemperaturaGT, h1, h2]
  · intro hc hs
    simp only [controlarTemperaturaGT, hc]
    norm_num

/-- Witness of C8: the sweep 57.0, 60.0, 61.0, 58.5 at the default setpoint 60.0
from the initial state. -/
theorem C8_histeresis_grupo_termico_witness :
    (controlarTemperaturaGT cfgDefecto 57 estadoInicial).grupoTermico_ON = true ∧
    (controlarTemperaturaGT cfgDefecto 60
      (controlarTemperaturaGT cfgDefecto 57 estadoInicial)).grupoTermico_ON = true ∧
    (controlarTemperaturaGT cfgDefecto 61 (controlarTemperaturaGT cfgDefecto 60
      (controlarTemperaturaGT cfgDefecto 57 estadoInicial))).grupoTermico_ON = false ∧
    (controlarTemperaturaGT cfgDefecto (117 / 2) (controlarTemperaturaGT cfgDefecto 61
      (controlarTemperaturaGT cfgDefecto 60
        (controlarTemperaturaGT cfgDefecto 57 estadoInicial)))).grupoTermico_ON = false :=
  (C8_histeresis_grupo_termico cfgDefecto 57 estadoInicial).2.2.2 rfl rfl

/-- C9: with the schedule enabled and the wall-clock time available, for a
weekday in `0..6` and minute-of-day `tm_hour * 60 + tm_min`, `verificarHorario`
returns false if the weekday bit of the mask is clear, and otherwise returns
true exactly when the minute lies in the half-open morning window or in the
half-open afternoon window. -/
theorem C9_horario_ventanas (cfg : Config) (timeinfo : Tm)
    (hEn : cfg.cfg_schedEnable ≠ 0) (hw : timeinfo.tm_wday ≤ 6) :
    (cfg.cfg_schedDiasMask.testBit timeinfo.tm_wday = false →
      verificarHorario cfg (some timeinfo) = false) ∧
    (cfg.cfg_schedDiasMask.testBit timeinfo.tm_wday = true →
      (verificarHorario cfg (some timeinfo) = true ↔
        (cfg.cfg_schedMananaON ≤ timeinfo.tm_hour * 60 + timeinfo.tm_min ∧
          timeinfo.tm_hour * 60 + timeinfo.tm_min < cfg.cfg_schedMananaOFF) ∨
        (cfg.cfg_schedTardeON ≤ timeinfo.tm_hour * 60 + timeinfo.tm_min ∧
          timeinfo.tm_hour * 60 + timeinfo.tm_min < cfg.cfg_schedTardeOFF))) := by
  have hb := mask_and_bit_dia cfg.cfg_schedDiasMask timeinfo.tm_wday hw
  constructor
  · intro hclear
    have h0 := hb.mpr hclear
    simp [verificarHorario, hEn, h0]
  · intro hset
    have h0 : ¬ (cfg.cfg_schedDiasMask &&& ((1 <<< timeinfo.tm_wday) % 256) = 0) := by
      intro h
      rw [hb.mp h] at hset
      cases hset
    simp only [verificarHorario, hEn, h0, if_false, ge_iff_le]
    split_ifs with h1 h2
    · simp [h1]
    · simp [h1, h2]
    · simp [h1, h2]

/-- Witness of C9: with the default windows (08:00-14:00, 16:00-22:00) and mask
(Monday to Friday), Monday 08:00 admits (on-boundary), Monday 14:00 denies
(off-boundary) and Sunday 10:00 denies (day not in the mask). -/
theorem C9_horario_ventanas_witness :
    verificarHorario cfgHorario (some { tm_hour := 8, tm_min := 0, tm_wday := 1 }) = true ∧
    verificarHorario cfgHorario (some { tm_hour := 14, tm_min := 0, tm_wday := 1 }) = false ∧
    verificarHorario cfgHorario (some { tm_hour := 10, tm_min := 0, tm_wday := 0 }) = false := by
  refine ⟨?_, ?_, ?_⟩
  · exact ((C9_horario_ventanas cfgHorario { tm_hour := 8, tm_min := 0, tm_wday := 1 }
      (by decide) (by decide)).2 (by decide)).mpr (Or.inl ⟨by decide, by decide⟩)
  · have h := (C9_horario_ventanas cfgHorario { tm_hour := 14, tm_min := 0, tm_wday := 1 }
      (by decide) (by decide)).2 (by decide)
    cases hv : verificarHorario cfgHorario (some { tm_hour := 14, tm_min := 0, tm_wday := 1 })
    · rfl
    · exact absurd (h.mp hv) (by decide)
  · exact (C9_horario_ventanas cfgHorario { tm_hour := 10, tm_min := 0, tm_wday := 0 }
      (by decide) (by decide)).1 (by decide)

/-- C10: the schedule gate fails open. `verificarHorario` returns true whenever
`cfg_schedEnable` is 0, and whenever the wall-clock time cannot be obtained, for
every day mask and every window configuration. -/
theorem C10_horario_falla_abierto (cfg : Config) (hora : Option Tm)
    (h : cfg.cfg_schedEnable = 0 ∨ hora = none) :
    verificarHorario cfg hora = true := by
  rcases h with h | h
  · simp [verificarHorario, h]
  · subst h
    simp [verificarHorario]

/-- Witness of C10: with schedule enabled, an empty day mask and empty windows,
the gate admits when the time is unavailable; with the schedule disabled it
admits on a Sunday at midnight although the default mask excludes Sunday. -/
theorem C10_horario_falla_abierto_witness :
    verificarHorario cfgHorarioVacio none = true ∧
    verificarHorario cfgDefecto (some { tm_hour := 0, tm_min := 0, tm_wday := 0 }) = true :=
  ⟨C10_horario_falla_abierto cfgHorarioVacio none (Or.inr rfl),
   C10_horario_falla_abierto cfgDefecto _ (Or.inl rfl)⟩

/-! ## Claims about the fail-safe path, post-circulation entry and the alternation engine -/

/-- C14: a control tick with no emergency, system on, supervisory on, the
schedule admitting or the program selector off, not both thermal-relay faults,
and neither pump available ends with both pumps off, the condensation pump on,
the thermal group off and the post-circulation indicator off. -/
theorem C14_sin_bombas_condensacion (cfg : Config) (e : Entorno) (s : Estado)
    (hEm : isALARMA e.pines.PIN_EMERGENCIA = false)
    (hSys : isON e.pines.PIN_SYS_ONOFF = true)
    (hJef : isON e.pines.PIN_JEFATURA = true)
    (hHor : isON e.pines.PIN_PROG_SEL = false ∨ verificarHorario cfg e.hora = true)
    (hRT : ¬ (isALARMA e.pines.PIN_RT1 = true ∧ isALARMA e.pines.PIN_RT2 = true))
    (hB1 : bomba1_disponible e.pines = false)
    (hB2 : bomba2_disponible e.pines = false) :
    (ejecutarLogicaControl cfg e s).bomba1_ON = false ∧
    (ejecutarLogicaControl cfg e s).bomba2_ON = false ∧
    (ejecutarLogicaControl cfg e s).bombaCondensacion_ON = true ∧
    (ejecutarLogicaControl cfg e s).grupoTermico_ON = false ∧
    (ejecutarLogicaControl cfg e s).postCirculacion_ON = false := by
  rcases hHor with hP | hV
  · simp [ejecutarLogicaControl, hEm, hSys, hJef, hP, hRT, hB1, hB2]
  · simp [ejecutarLogicaControl, hEm, hSys, hJef, hV, hRT, hB1, hB2]

/-- Witness of C14: from the running state, switching both pump switches off
stops pump 1 and the thermal group and starts the condensation pump. -/
theorem C14_sin_bombas_condensacion_witness :
    estadoEnMarcha.bomba1_ON = true ∧
    (ejecutarLogicaControl cfgDefecto entSinBombas estadoEnMarcha).bomba1_ON = false ∧
    (ejecutarLogicaControl cfgDefecto entSinBombas estadoEnMarcha).bomba2_ON = false ∧
    (ejecutarLogicaControl cfgDefecto entSinBombas estadoEnMarcha).bombaCondensacion_ON = true ∧
    (ejecutarLogicaControl cfgDefecto entSinBombas estadoEnMarcha).grupoTermico_ON = false ∧
    (ejecutarLogicaControl cfgDefecto entSinBombas estadoEnMarcha).postCirculacion_ON = false :=
  ⟨by rw [estadoEnMarcha_eq],
    C14_sin_bombas_condensacion cfgDefecto entSinBombas estadoEnMarcha
      (by decide) (by decide) (by decide) (Or.inl (by decide)) (by decide) (by decide)
      (by decide)⟩

/-- C16: with post-circulation already active, `iniciarPostCirculacion` returns
the state unchanged for every current time and pump availability; and from any
state, calling it twice in a row equals calling it once. -/
theorem C16_iniciar_post_circulacion_idempotente (p q : Pines) (t u : Nat) (s : Estado)
    (h : s.post_circulacion_activa = true) :
    iniciarPostCirculacion p t s = s ∧
    ∀ s0 : Estado,
      iniciarPostCirculacion q u (iniciarPostCirculacion p t s0) =
        iniciarPostCirculacion p t s0 := by
  constructor
  · simp [iniciarPostCirculacion, h]
  · intro s0
    have ha : (iniciarPostCirculacion p t s0).post_circulacion_activa = true := by
      unfold iniciarPostCirculacion
      cases hs : s0.post_circulacion_activa
      · simp only [hs, Bool.not_false, if_true]
        split_ifs <;> rfl
      · simp [hs]
    generalize iniciarPostCirculacion p t s0 = s1 at ha
    simp [iniciarPostCirculacion, ha]

/-- Witness of C16: a trigger at time 9000 with no pump available leaves the
post-circulation started at 5000 on pump 1 as it is. -/
theorem C16_iniciar_post_circulacion_idempotente_witness :
    iniciarPostCirculacion entSinBombas.pines 9000 estadoPostCirc = estadoPostCirc ∧
    ∀ s0 : Estado,
      iniciarPostCirculacion pinesNormal 7 (iniciarPostCirculacion entSinBombas.pines 9000 s0) =
        iniciarPostCirculacion entSinBombas.pines 9000 s0 :=
  C16_iniciar_post_circulacion_idempotente entSinBombas.pines pinesNormal 9000 7 estadoPostCirc
    (by rw [estadoPostCirc_eq])

/-- C17 (as stated, refuted): entering post-circulation from idle in the running
state leaves the reason tag at `PC_NONE`. -/
theorem C17_motivo_counterexample :
    estadoEnMarcha.post_circulacion_activa = false ∧
    (iniciarPostCirculacion pinesNormal 5000 estadoEnMarcha).motivo_postcirc
      = MotivoPostCirc.PC_NONE := by
  rw [estadoEnMarcha_eq]
  simp [iniciarPostCirculacion, estadoInicial, pinesNormal, bomba1_disponible, isALARMA]

/-- C17 (amended): on entry from idle, `iniciarPostCirculacion` sets
`bomba_post_circulacion` to 1 if pump 1 is available, else 2 if pump 2 is
available, else 3, sets `post_circulacion_inicio_ms` to the current time and
the active flag to true, and leaves the reason tag `motivo_postcirc` as it was. -/
theorem C17_iniciar_post_circulacion_entrada (p : Pines) (ahora : Nat) (s : Estado)
    (h : s.post_circulacion_activa = false) :
    (iniciarPostCirculacion p ahora s).bomba_post_circulacion =
      (if bomba1_disponible p = true then 1 else if bomba2_disponible p = true then 2 else 3) ∧
    (iniciarPostCirculacion p ahora s).post_circulacion_inicio_ms = ahora ∧
    (iniciarPostCirculacion p ahora s).post_circulacion_activa = true ∧
    (iniciarPostCirculacion p ahora s).motivo_postcirc = s.motivo_postcirc := by
  unfold iniciarPostCirculacion
  simp only [h]
  split_ifs <;> simp_all

/-- Witness of C17 (amended): with only pump 2 available the fallback is pump 2. -/
theorem C17_iniciar_post_circulacion_entrada_witness :
    (iniciarPostCirculacion { pinesNormal with PIN_RT1 := true } 5000
      estadoEnMarcha).bomba_post_circulacion = 2 ∧
    (iniciarPostCirculacion { pinesNormal with PIN_RT1 := true } 5000
      estadoEnMarcha).post_circulacion_inicio_ms = 5000 ∧
    (iniciarPostCirculacion { pinesNormal with PIN_RT1 := true } 5000
      estadoEnMarcha).post_circulacion_activa = true ∧
    (iniciarPostCirculacion { pinesNormal with PIN_RT1 := true } 5000
      estadoEnMarcha).motivo_postcirc = estadoEnMarcha.motivo_postcirc :=
  C17_iniciar_post_circulacion_entrada { pinesNormal with PIN_RT1 := true } 5000 estadoEnMarcha
    (by rw [estadoEnMarcha_eq]; rfl)

/-- C19: in suspended mode with exactly one pump available,
`determinarBombaActiva` returns that pump, whatever the elapsed time and the
turn, and leaves the state (turn, turn start, suspended flag) unchanged. -/
theorem C19_alternancia_suspendida (cfg : Config) (p : Pines) (ahora : Nat) (s : Estado)
    (hs : s.alternancia_suspendida = true)
    (hx : bomba1_disponible p ≠ bomba2_disponible p) :
    (((determinarBombaActiva cfg p ahora s).1 = 1 ∧ bomba1_disponible p = true) ∨
     ((determinarBombaActiva cfg p ahora s).1 = 2 ∧ bomba2_disponible p = true)) ∧
    (determinarBombaActiva cfg p ahora s).2.turno_bomba1 = s.turno_bomba1 ∧
    (determinarBombaActiva cfg p ahora s).2.alternancia_inicio_ms = s.alternancia_inicio_ms ∧
    (determinarBombaActiva cfg p ahora s).2.alternancia_suspendida = s.alternancia_suspendida ∧
    (determinarBombaActiva cfg p ahora s).2 = s := by
  unfold determinarBombaActiva
  simp only [hs, if_true]
  cases h1 : bomba1_disponible p <;> cases h2 : bomba2_disponible p <;> simp_all

/-- Witness of C19: suspended, only pump 1 available, long after the period has
elapsed: pump 1 is returned and the state is unchanged. -/
theorem C19_alternancia_suspendida_witness :
    (((determinarBombaActiva cfgDefecto pinesSoloB1 99000000 estadoSuspendido).1 = 1 ∧
        bomba1_disponible pinesSoloB1 = true) ∨
     ((determinarBombaActiva cfgDefecto pinesSoloB1 99000000 estadoSuspendido).1 = 2 ∧
        bomba2_disponible pinesSoloB1 = true)) ∧
    (determinarBombaActiva cfgDefecto pinesSoloB1 99000000 estadoSuspendido).2.turno_bomba1
      = estadoSuspendido.turno_bomba1 ∧
    (determinarBombaActiva cfgDefecto pinesSoloB1 99000000
      estadoSuspendido).2.alternancia_inicio_ms = estadoSuspendido.alternancia_inicio_ms ∧
    (determinarBombaActiva cfgDefecto pinesSoloB1 99000000
      estadoSuspendido).2.alternancia_suspendida = estadoSuspendido.alternancia_suspendida ∧
    (determinarBombaActiva cfgDefecto pinesSoloB1 99000000 estadoSuspendido).2
      = estadoSuspendido :=
  C19_alternancia_suspendida cfgDefecto pinesSoloB1 99000000 estadoSuspendido
    (by decide) (by decide)

/-- C12 (the code at the failing input): with the default period 120 and pump 1
running with 7200000 ms (120 minutes) of run time, no faults, the alternation
keeps pump 1 on; the limit it compares with is 120 x 3600000 ms. -/
theorem C12_alternancia_limite_en_horas :
    estadoB1DosHoras.bomba1_ON = true ∧
    estadoB1DosHoras.tiempoB1_ms = cfgDefecto.cfg_alternanciaHoras * 60000 ∧
    (gestionarAlternancia cfgDefecto false false estadoB1DosHoras).bomba1_ON = true ∧
    (gestionarAlternancia cfgDefecto false false estadoB1DosHoras).bomba2_ON = false ∧
    (gestionarAlternancia cfgDefecto false false
      { estadoB1DosHoras with tiempoB1_ms := 120 * 3600000 - 1 }).bomba2_ON = false ∧
    (gestionarAlternancia cfgDefecto false false
      { estadoB1DosHoras with tiempoB1_ms := 120 * 3600000 }).bomba2_ON = true := by
  rw [estadoB1DosHoras, estadoEnMarcha_eq]
  simp [gestionarAlternancia, cfgDefecto, estadoInicial, ULONG_MOD]

/-- C15 (the code at the failing input): an emergency tick during an active
post-circulation leaves `post_circulacion_activa` true, whereas
`cancelarPostCirculacion` would clear it. -/
theorem C15_emergencia_no_cancela_post_circulacion :
    estadoPostCirc.post_circulacion_activa = true ∧
    isALARMA entEmergencia.pines.PIN_EMERGENCIA = true ∧
    (ejecutarLogicaControl cfgDefecto entEmergencia estadoPostCirc).post_circulacion_activa
      = true ∧
    (cancelarPostCirculacion estadoPostCirc).post_circulacion_activa = false := by
  rw [estadoPostCirc_eq]
  simp [ejecutarLogicaControl, cancelarPostCirculacion, entEmergencia, entNormal, pinesNormal,
    isALARMA]

/-- C18 (the code at the failing input): turn of pump 1, not suspended, pump 1
available and pump 2 not, elapsed time equal to the period: the engine flips the
turn, returns pump 2 and does not enter suspended mode. -/
theorem C18_cambio_turno_sin_comprobar_disponibilidad :
    estadoInicial.turno_bomba1 = true ∧ estadoInicial.alternancia_suspendida = false ∧
    bomba1_disponible pinesSoloB1 = true ∧ bomba2_disponible pinesSoloB1 = false ∧
    restaU32 7200000 estadoInicial.alternancia_inicio_ms
      = cfgDefecto.cfg_alternanciaHoras * 60000 ∧
    (determinarBombaActiva cfgDefecto pinesSoloB1 7200000 estadoInicial).1 = 2 ∧
    (determinarBombaActiva cfgDefecto pinesSoloB1 7200000 estadoInicial).2.turno_bomba1
      = false ∧
    (determinarBombaActiva cfgDefecto pinesSoloB1 7200000
      estadoInicial).2.alternancia_suspendida = false := by
  simp [determinarBombaActiva, cfgDefecto, estadoInicial, pinesSoloB1, pinesNormal,
    bomba1_disponible, bomba2_disponible, isALARMA, restaU32, ULONG_MOD]

/-! ## Claims about the run-time counters -/

/-- C13: two consecutive output updates, at times `t1` and `t2`, with the pump
flags mutually exclusive at both. If pump 1 was the active pump at the first
and pump 2 is at the second, the run time of pump 2 after the second update is
exactly the elapsed time `t2 - t1` (it was zeroed before the elapsed time was
added) and that of pump 1 is unchanged; symmetrically from pump 2 to pump 1;
and if the flags are the same at both updates no run time is reset: each one
grows by the elapsed time when its pump is on and is unchanged otherwise. -/
theorem C13_reset_parcial_por_flanco (s0 : Estado) (nvs0 nvs1 : NVS) (t1 t2 : Nat)
    (b1 b2 : Bool)
    (hprev : ¬ (s0.bomba1_ON = true ∧ s0.bomba2_ON = true))
    (hcur : ¬ (b1 = true ∧ b2 = true)) :
    (s0.bomba1_ON = true → b2 = true →
      (actualizarSalidas t2 nvs1
          (conBombas (actualizarSalidas t1 nvs0 s0).1 b1 b2)).1.tiempoB2_ms
        = restaU32 t2 t1 ∧
      (actualizarSalidas t2 nvs1
          (conBombas (actualizarSalidas t1 nvs0 s0).1 b1 b2)).1.tiempoB1_ms
        = (actualizarSalidas t1 nvs0 s0).1.tiempoB1_ms) ∧
    (s0.bomba2_ON = true → b1 = true →
      (actualizarSalidas t2 nvs1
          (conBombas (actualizarSalidas t1 nvs0 s0).1 b1 b2)).1.tiempoB1_ms
        = restaU32 t2 t1 ∧
      (actualizarSalidas t2 nvs1
          (conBombas (actualizarSalidas t1 nvs0 s0).1 b1 b2)).1.tiempoB2_ms
        = (actualizarSalidas t1 nvs0 s0).1.tiempoB2_ms) ∧
    (s0.bomba1_ON = b1 → s0.bomba2_ON = b2 →
      (actualizarSalidas t2 nvs1
          (conBombas (actualizarSalidas t1 nvs0 s0).1 b1 b2)).1.tiempoB1_ms
        = (if b1 = true then
            ((actualizarSalidas t1 nvs0 s0).1.tiempoB1_ms + restaU32 t2 t1) % ULONG_MOD
           else (actualizarSalidas t1 nvs0 s0).1.tiempoB1_ms) ∧
      (actualizarSalidas t2 nvs1
          (conBombas (actualizarSalidas t1 nvs0 s0).1 b1 b2)).1.tiempoB2_ms
        = (if b2 = true then
            ((actualizarSalidas t1 nvs0 s0).1.tiempoB2_ms + restaU32 t2 t1) % ULONG_MOD
           else (actualizarSalidas t1 nvs0 s0).1.tiempoB2_ms)) := by
  obtain ⟨k1, k2, k3, k4, -, -⟩ := actualizarSalidas_recuerda t1 nvs0 s0
  refine ⟨?_, ?_, ?_⟩
  · intro hp1 hb2
    have hb1 : b1 = false := by
      cases b1
      · rfl
      · exact absurd ⟨rfl, hb2⟩ hcur
    have hp2 : s0.bomba2_ON = false := by
      cases h : s0.bomba2_ON
      · rfl
      · exact absurd ⟨hp1, h⟩ hprev
    have h := actualizarSalidas_flanco_b2 t2 nvs1
      (conBombas (actualizarSalidas t1 nvs0 s0).1 b1 b2)
      (by simp [conBombas, hb1]) (by simp [conBombas, hb2])
      (by simp [conBombas, k3, hp1]) (by simp [conBombas, k2, hp2])
    simpa [conBombas, k4] using h
  · intro hp2 hb1
    have hb2 : b2 = false := by
      cases b2
      · rfl
      · exact absurd ⟨hb1, rfl⟩ hcur
    have hp1 : s0.bomba1_ON = false := by
      cases h : s0.bomba1_ON
      · rfl
      · exact absurd ⟨h, hp2⟩ hprev
    have h := actualizarSalidas_flanco_b1 t2 nvs1
      (conBombas (actualizarSalidas t1 nvs0 s0).1 b1 b2)
      (by simp [conBombas, hb1]) (by simp [conBombas, hb2])
      (by simp [conBombas, k3, hp1, hp2]) (by simp [conBombas, k1, hp1])
    simpa [conBombas, k4] using h
  · intro e1 e2
    have h := actualizarSalidas_sin_flanco t2 nvs1
      (conBombas (actualizarSalidas t1 nvs0 s0).1 b1 b2)
      (by simp [conBombas, k1, e1]) (by simp [conBombas, k2, e2])
    simpa [conBombas, k4] using h

/-- Witness of C13: pump 1 runs at the update of time 1000, pump 2 at the update
of time 1100: the run time of pump 2 is then the 100 ms elapsed and that of
pump 1 is what the first update left. -/
theorem C13_reset_parcial_por_flanco_witness :
    (actualizarSalidas 1100 NVS.vacio
        (conBombas (actualizarSalidas 1000 NVS.vacio estadoEnMarcha).1 false true)).1.tiempoB2_ms
      = restaU32 1100 1000 ∧
    (actualizarSalidas 1100 NVS.vacio
        (conBombas (actualizarSalidas 1000 NVS.vacio estadoEnMarcha).1 false true)).1.tiempoB1_ms
      = (actualizarSalidas 1000 NVS.vacio estadoEnMarcha).1.tiempoB1_ms :=
  (C13_reset_parcial_por_flanco estadoEnMarcha NVS.vacio NVS.vacio 1000 1100 false true
    (by rw [estadoEnMarcha_eq]; simp [estadoInicial]) (by decide)).1
    (by rw [estadoEnMarcha_eq]) rfl

/-! ## Claims about the configuration registers -/

/-- C20: `updateInternalVariableFromModbus` over an explicit key-value store. For
each of the twelve registers 0..6 and 100..104 the write sets the matching
parameter to `v` (to `v` read as a signed 16-bit value for the three temperature
setpoints), stores the same value under the key of that parameter and leaves
every other parameter and every other key unchanged; any other register changes
nothing. And a subsequent `loadAllSettingsFromNVS` reproduces the parameters in
memory: after the load of `setup()` over any store found at power-up, any
sequence of register writes and then the write of `v` to `reg`, both a restart
(a load of the resulting store over the initialisers) and a load in place
return exactly the parameters in memory. -/
theorem C20_escritura_configuracion (cfg : Config) (nvs : NVS) (reg v : Nat) (nvs0 : NVS)
    (ws : List (Nat × Nat)) :
    (reg = 0 →
      (updateInternalVariableFromModbus reg v cfg nvs).1
        = { cfg with cfg_alternanciaHoras := v } ∧
      (updateInternalVariableFromModbus reg v cfg nvs).2 "alt" = some (ValorNVS.ushort v) ∧
      ∀ k : String, k ≠ "alt" → (updateInternalVariableFromModbus reg v cfg nvs).2 k = nvs k) ∧
    (reg = 1 →
      (updateInternalVariableFromModbus reg v cfg nvs).1
        = { cfg with cfg_postCirculacionSeg := v } ∧
      (updateInternalVariableFromModbus reg v cfg nvs).2 "post" = some (ValorNVS.ushort v) ∧
      ∀ k : String, k ≠ "post" → (updateInternalVariableFromModbus reg v cfg nvs).2 k = nvs k) ∧
    (reg = 2 →
      (updateInternalVariableFromModbus reg v cfg nvs).1
        = { cfg with cfg_tempMinGT_x10 := toInt16 v } ∧
      (updateInternalVariableFromModbus reg v cfg nvs).2 "tmin"
        = some (ValorNVS.short (toInt16 v)) ∧
      ∀ k : String, k ≠ "tmin" → (updateInternalVariableFromModbus reg v cfg nvs).2 k = nvs k) ∧
    (reg = 3 →
      (updateInternalVariableFromModbus reg v cfg nvs).1
        = { cfg with cfg_tempMaxGT_x10 := toInt16 v } ∧
      (updateInternalVariableFromModbus reg v cfg nvs).2 "tmax"
        = some (ValorNVS.short (toInt16 v)) ∧
      ∀ k : String, k ≠ "tmax" → (updateInternalVariableFromModbus reg v cfg nvs).2 k = nvs k) ∧
    (reg = 4 →
      (updateInternalVariableFromModbus reg v cfg nvs).1
        = { cfg with cfg_sensorMode := v } ∧
      (updateInternalVariableFromModbus reg v cfg nvs).2 "mode" = some (ValorNVS.ushort v) ∧
      ∀ k : String, k ≠ "mode" → (updateInternalVariableFromModbus reg v cfg nvs).2 k = nvs k) ∧
    (reg = 5 →
      (updateInternalVariableFromModbus reg v cfg nvs).1
        = { cfg with cfg_tempFijaGT_x10 := toInt16 v } ∧
      (updateInternalVariableFromModbus reg v cfg nvs).2 "tfix"
        = some (ValorNVS.short (toInt16 v)) ∧
      ∀ k : String, k ≠ "tfix" → (updateInternalVariableFromModbus reg v cfg nvs).2 k = nvs k) ∧
    (reg = 6 →
      (updateInternalVariableFromModbus reg v cfg nvs).1
        = { cfg with cfg_schedEnable := v } ∧
      (updateInternalVariableFromModbus reg v cfg nvs).2 "sch_en" = some (ValorNVS.ushort v) ∧
      ∀ k : String, k ≠ "sch_en" → (updateInternalVariableFromModbus reg v cfg nvs).2 k = nvs k) ∧
    (reg = 100 →
      (updateInternalVariableFromModbus reg v cfg nvs).1
        = { cfg with cfg_schedMananaON := v } ∧
      (updateInternalVariableFromModbus reg v cfg nvs).2 "m_on" = some (ValorNVS.ushort v) ∧
      ∀ k : String, k ≠ "m_on" → (updateInternalVariableFromModbus reg v cfg nvs).2 k = nvs k) ∧
    (reg = 101 →
      (updateInternalVariableFromModbus reg v cfg nvs).1
        = { cfg with cfg_schedMananaOFF := v } ∧
      (updateInternalVariableFromModbus reg v cfg nvs).2 "m_off" = some (ValorNVS.ushort v) ∧
      ∀ k : String, k ≠ "m_off" → (updateInternalVariableFromModbus reg v cfg nvs).2 k = nvs k) ∧
    (reg = 102 →
      (updateInternalVariableFromModbus reg v cfg nvs).1
        = { cfg with cfg_schedTardeON := v } ∧
      (updateInternalVariableFromModbus reg v cfg nvs).2 "t_on" = some (ValorNVS.ushort v) ∧
      ∀ k : String, k ≠ "t_on" → (updateInternalVariableFromModbus reg v cfg nvs).2 k = nvs k) ∧
    (reg = 103 →
      (updateInternalVariableFromModbus reg v cfg nvs).1
        = { cfg with cfg_schedTardeOFF := v } ∧
      (updateInternalVariableFromModbus reg v cfg nvs).2 "t_off" = some (ValorNVS.ushort v) ∧
      ∀ k : String, k ≠ "t_off" → (updateInternalVariableFromModbus reg v cfg nvs).2 k = nvs k) ∧
    (reg = 104 →
      (updateInternalVariableFromModbus reg v cfg nvs).1
        = { cfg with cfg_schedDiasMask := v } ∧
      (updateInternalVariableFromModbus reg v cfg nvs).2 "mask" = some (ValorNVS.ushort v) ∧
      ∀ k : String, k ≠ "mask" → (updateInternalVariableFromModbus reg v cfg nvs).2 k = nvs k) ∧
    ((reg ≠ 0 ∧ reg ≠ 1 ∧ reg ≠ 2 ∧ reg ≠ 3 ∧ reg ≠ 4 ∧ reg ≠ 5 ∧ reg ≠ 6 ∧
       reg ≠ 100 ∧ reg ≠ 101 ∧ reg ≠ 102 ∧ reg ≠ 103 ∧ reg ≠ 104) →
      updateInternalVariableFromModbus reg v cfg nvs = (cfg, nvs)) ∧
    ((v < 32768 → toInt16 v = (v : Int)) ∧
      (32768 ≤ v → v < 65536 → toInt16 v = (v : Int) - 65536)) ∧
    (arranque
        (updateInternalVariableFromModbus reg v
          (escribirRegistros ws ((arranque nvs0).1, nvs0)).1
          (escribirRegistros ws ((arranque nvs0).1, nvs0)).2).2).1
      = (updateInternalVariableFromModbus reg v
          (escribirRegistros ws ((arranque nvs0).1, nvs0)).1
          (escribirRegistros ws ((arranque nvs0).1, nvs0)).2).1 ∧
    (∀ s : Estado,
      (loadAllSettingsFromNVS
        (updateInternalVariableFromModbus reg v
          (escribirRegistros ws ((arranque nvs0).1, nvs0)).1
          (escribirRegistros ws ((arranque nvs0).1, nvs0)).2).2
        (updateInternalVariableFromModbus reg v
          (escribirRegistros ws ((arranque nvs0).1, nvs0)).1
          (escribirRegistros ws ((arranque nvs0).1, nvs0)).2).1 s).1
      = (updateInternalVariableFromModbus reg v
          (escribirRegistros ws ((arranque nvs0).1, nvs0)).1
          (escribirRegistros ws ((arranque nvs0).1, nvs0)).2).1) := by
  refine ⟨?_, ?_, ?_, ?_, ?_, ?_, ?_, ?_, ?_, ?_, ?_, ?_, ?_, ?_, ?_, ?_⟩
  · intro h
    subst h
    refine ⟨?_, ?_, ?_⟩
    · simp [updateInternalVariableFromModbus, registros]
    · simp [updateInternalVariableFromModbus, registros, NVS.putUShort, NVS.putShort]
    · intro k hk
      simp [updateInternalVariableFromModbus, registros, NVS.putUShort, NVS.putShort, hk]
  · intro h
    subst h
    refine ⟨?_, ?_, ?_⟩
    · simp [updateInternalVariableFromModbus, registros]
    · simp [updateInternalVariableFromModbus, registros, NVS.putUShort, NVS.putShort]
    · intro k hk
      simp [updateInternalVariableFromModbus, registros, NVS.putUShort, NVS.putShort, hk]
  · intro h
    subst h
    refine ⟨?_, ?_, ?_⟩
    · simp [updateInternalVariableFromModbus, registros]
    · simp [updateInternalVariableFromModbus, registros, NVS.putUShort, NVS.putShort]
    · intro k hk
      simp [updateInternalVariableFromModbus, registros, NVS.putUShort, NVS.putShort, hk]
  · intro h
    subst h
    refine ⟨?_, ?_, ?_⟩
    · simp [updateInternalVariableFromModbus, registros]
    · simp [updateInternalVariableFromModbus, registros, NVS.putUShort, NVS.putShort]
    · intro k hk
      simp [updateInternalVariableFromModbus, registros, NVS.putUShort, NVS.putShort, hk]
  · intro h
    subst h
    refine ⟨?_, ?_, ?_⟩
    · simp [updateInternalVariableFromModbus, registros]
    · simp [updateInternalVariableFromModbus, registros, NVS.putUShort, NVS.putShort]
    · intro k hk
      simp [updateInternalVariableFromModbus, registros, NVS.putUShort, NVS.putShort, hk]
  · intro h
    subst h
    refine ⟨?_, ?_, ?_⟩
    · simp [updateInternalVariableFromModbus, registros]
    · simp [updateInternalVariableFromModbus, registros, NVS.putUShort, NVS.putShort]
    · intro k hk
      simp [updateInternalVariableFromModbus, registros, NVS.putUShort, NVS.putShort, hk]
  · intro h
    subst h
    refine ⟨?_, ?_, ?_⟩
    · simp [updateInternalVariableFromModbus, registros]
    · simp [updateInternalVariableFromModbus, registros, NVS.putUShort, NVS.putShort]
    · intro k hk
      simp [updateInternalVariableFromModbus, registros, NVS.putUShort, NVS.putShort, hk]
  · intro h
    subst h
    refine ⟨?_, ?_, ?_⟩
    · simp [updateInternalVariableFromModbus, registros]
    · simp [updateInternalVariableFromModbus, registros, NVS.putUShort, NVS.putShort]
    · intro k hk
      simp [updateInternalVariableFromModbus, registros, NVS.putUShort, NVS.putShort, hk]
  · intro h
    subst h
    refine ⟨?_, ?_, ?_⟩
    · simp [updateInternalVariableFromModbus, registros]
    · simp [updateInternalVariableFromModbus, registros, NVS.putUShort, NVS.putShort]
    · intro k hk
      simp [updateInternalVariableFromModbus, registros, NVS.putUShort, NVS.putShort, hk]
  · intro h
    subst h
    refine ⟨?_, ?_, ?_⟩
    · simp [updateInternalVariableFromModbus, registros]
    · simp [updateInternalVariableFromModbus, registros, NVS.putUShort, NVS.putShort]
    · intro k hk
      simp [updateInternalVariableFromModbus, registros, NVS.putUShort, NVS.putShort, hk]
  · intro h
    subst h
    refine ⟨?_, ?_, ?_⟩
    · simp [updateInternalVariableFromModbus, registros]
    · simp [updateInternalVariableFromModbus, registros, NVS.putUShort, NVS.putShort]
    · intro k hk
      simp [updateInternalVariableFromModbus, registros, NVS.putUShort, NVS.putShort, hk]
  · intro h
    subst h
    refine ⟨?_, ?_, ?_⟩
    · simp [updateInternalVariableFromModbus, registros]
    · simp [updateInternalVariableFromModbus, registros, NVS.putUShort, NVS.putShort]
    · intro k hk
      simp [updateInternalVariableFromModbus, registros, NVS.putUShort, NVS.putShort, hk]
  · rintro ⟨h0, h1, h2, h3, h4, h5, h6, h7, h8, h9, h10, h11⟩
    simp [updateInternalVariableFromModbus, registros, h0, h1, h2, h3, h4, h5, h6, h7, h8, h9,
      h10, h11]
  · constructor
    · intro h
      have hm : v % 65536 = v := Nat.mod_eq_of_lt (by omega)
      simp [toInt16, hm, h]
    · intro h h2
      have hm : v % 65536 = v := Nat.mod_eq_of_lt h2
      have hn : ¬ v < 32768 := by omega
      simp [toInt16, hm, hn]
  · exact escritura_conserva_carga cfgDefecto _ _ estadoInicial reg v
      (escribirRegistros_conserva_carga cfgDefecto estadoInicial ws ((arranque nvs0).1, nvs0)
        rfl)
  · intro s
    exact carga_en_sitio cfgDefecto _ _ estadoInicial s
      (escritura_conserva_carga cfgDefecto _ _ estadoInicial reg v
        (escribirRegistros_conserva_carga cfgDefecto estadoInicial ws
          ((arranque nvs0).1, nvs0) rfl))

/-- Witness of C20: writing 65286 to register 2 from the default parameters and
an empty store sets the minimum setpoint to -250 and stores it under "tmin";
and from an empty store at power-up, after that write and the write of 7 to
register 0, a restart returns the parameters in memory, with the alternation
period 7 and not the initialiser 120. -/
theorem C20_escritura_configuracion_witness :
    ((updateInternalVariableFromModbus 2 65286 cfgDefecto NVS.vacio).1
        = { cfgDefecto with cfg_tempMinGT_x10 := toInt16 65286 } ∧
      (updateInternalVariableFromModbus 2 65286 cfgDefecto NVS.vacio).2 "tmin"
        = some (ValorNVS.short (toInt16 65286)) ∧
      ∀ k : String, k ≠ "tmin" →
        (updateInternalVariableFromModbus 2 65286 cfgDefecto NVS.vacio).2 k = NVS.vacio k) ∧
    toInt16 65286 = ((65286 : Nat) : Int) - 65536 ∧
    (arranque
        (updateInternalVariableFromModbus 0 7
          (escribirRegistros [(2, 65286)] ((arranque NVS.vacio).1, NVS.vacio)).1
          (escribirRegistros [(2, 65286)] ((arranque NVS.vacio).1, NVS.vacio)).2).2).1
      = (updateInternalVariableFromModbus 0 7
          (escribirRegistros [(2, 65286)] ((arranque NVS.vacio).1, NVS.vacio)).1
          (escribirRegistros [(2, 65286)] ((arranque NVS.vacio).1, NVS.vacio)).2).1 ∧
    (updateInternalVariableFromModbus 0 7
        (escribirRegistros [(2, 65286)] ((arranque NVS.vacio).1, NVS.vacio)).1
        (escribirRegistros [(2, 65286)] ((arranque NVS.vacio).1, NVS.vacio)).2).1
      = { cfgDefecto with cfg_alternanciaHoras := 7, cfg_tempMinGT_x10 := -250 } :=
  ⟨(C20_escritura_configuracion cfgDefecto NVS.vacio 2 65286 NVS.vacio []).2.2.1 rfl,
   (C20_escritura_configuracion cfgDefecto NVS.vacio 2 65286 NVS.vacio
      []).2.2.2.2.2.2.2.2.2.2.2.2.2.1.2 (by decide) (by decide),
   (C20_escritura_configuracion cfgDefecto NVS.vacio 0 7 NVS.vacio
      [(2, 65286)]).2.2.2.2.2.2.2.2.2.2.2.2.2.2.1,
   by
    simp [updateInternalVariableFromModbus, escribirRegistros, arranque,
      loadAllSettingsFromNVS, registros, NVS.getUShort, NVS.getShort, NVS.vacio, cfgDefecto,
      toInt16]⟩

/-! ## Claims about the alternation by run time -/

/-- C11 (the code at the failing input): after pump 1 has handed over to pump 2
and pump 2 has run a full period (`trasRelevo`), the next control tick, with both
pumps available and no fault, leaves pump 2 on and pump 1 off: the run time of
pump 1 is still at the limit, and it is tested first. -/
theorem C11_bomba2_no_devuelve_turno :
    trasRelevo.1.bomba2_ON = true ∧ trasRelevo.1.bomba1_ON = false ∧
    trasRelevo.1.tiempoB2_ms ≥ (cfgAlt1.cfg_alternanciaHoras * 3600000) % ULONG_MOD ∧
    trasRelevo.1.tiempoB1_ms ≥ (cfgAlt1.cfg_alternanciaHoras * 3600000) % ULONG_MOD ∧
    bomba1_disponible (entNormalEn 7200200).pines = true ∧
    bomba2_disponible (entNormalEn 7200200).pines = true ∧
    isALARMA (entNormalEn 7200200).pines.PIN_RT1 = false ∧
    isALARMA (entNormalEn 7200200).pines.PIN_RT2 = false ∧
    (ejecutarLogicaControl cfgAlt1 (entNormalEn 7200200) trasRelevo.1).bomba2_ON = true ∧
    (ejecutarLogicaControl cfgAlt1 (entNormalEn 7200200) trasRelevo.1).bomba1_ON = false := by
  rw [trasRelevo_eq]
  simp [ejecutarLogicaControl, gestionarAlternancia, controlarTemperaturaGT, verificarHorario,
    cfgAlt1, cfgDefecto, entNormalEn, entNormal, pinesNormal, estadoInicial, isALARMA, isON,
    bomba1_disponible, bomba2_disponible, ULONG_MOD]
  norm_num

/-! ## Claims about the counter resets and the total run time -/

/-- C21: the four counter resets of `handleReset` are independent. Register 227
zeroes only the partial counter of pump 1, 228 only its total, 229 only the
partial counter of pump 2, 230 only its total; a total reset also writes 0
under the key of that counter and touches no other key, a partial reset leaves
the store as it is; any other register, or no register, changes nothing. -/
theorem C21_resets_independientes (r : Option Int) (s : Estado) (nvs : NVS) :
    (r = some 227 →
      (handleReset r s nvs).1 = { s with tiempoB1_ms := 0 } ∧ (handleReset r s nvs).2 = nvs) ∧
    (r = some 228 →
      (handleReset r s nvs).1 = { s with tiempoB1_total_ms := 0 } ∧
      (handleReset r s nvs).2 "b1_total_ms" = some (ValorNVS.ulong 0) ∧
      ∀ k : String, k ≠ "b1_total_ms" → (handleReset r s nvs).2 k = nvs k) ∧
    (r = some 229 →
      (handleReset r s nvs).1 = { s with tiempoB2_ms := 0 } ∧ (handleReset r s nvs).2 = nvs) ∧
    (r = some 230 →
      (handleReset r s nvs).1 = { s with tiempoB2_total_ms := 0 } ∧
      (handleReset r s nvs).2 "b2_total_ms" = some (ValorNVS.ulong 0) ∧
      ∀ k : String, k ≠ "b2_total_ms" → (handleReset r s nvs).2 k = nvs k) ∧
    (r ≠ some 227 → r ≠ some 228 → r ≠ some 229 → r ≠ some 230 →
      handleReset r s nvs = (s, nvs)) := by
  refine ⟨?_, ?_, ?_, ?_, ?_⟩
  · intro h
    subst h
    simp [handleReset, MB_REG_RESET_B1_PARCIAL]
  · intro h
    subst h
    refine ⟨?_, ?_, ?_⟩
    · simp [handleReset, MB_REG_RESET_B1_PARCIAL, MB_REG_RESET_B1_TOTAL]
    · simp [handleReset, MB_REG_RESET_B1_PARCIAL, MB_REG_RESET_B1_TOTAL, NVS.putULong]
    · intro k hk
      simp [handleReset, MB_REG_RESET_B1_PARCIAL, MB_REG_RESET_B1_TOTAL, NVS.putULong, hk]
  · intro h
    subst h
    simp [handleReset, MB_REG_RESET_B1_PARCIAL, MB_REG_RESET_B1_TOTAL, MB_REG_RESET_B2_PARCIAL]
  · intro h
    subst h
    refine ⟨?_, ?_, ?_⟩
    · simp [handleReset, MB_REG_RESET_B1_PARCIAL, MB_REG_RESET_B1_TOTAL,
        MB_REG_RESET_B2_PARCIAL, MB_REG_RESET_B2_TOTAL]
    · simp [handleReset, MB_REG_RESET_B1_PARCIAL, MB_REG_RESET_B1_TOTAL,
        MB_REG_RESET_B2_PARCIAL, MB_REG_RESET_B2_TOTAL, NVS.putULong]
    · intro k hk
      simp [handleReset, MB_REG_RESET_B1_PARCIAL, MB_REG_RESET_B1_TOTAL,
        MB_REG_RESET_B2_PARCIAL, MB_REG_RESET_B2_TOTAL, NVS.putULong, hk]
  · intro h1 h2 h3 h4
    cases r with
    | none => rfl
    | some reg =>
      have g1 : reg ≠ 227 := fun h => h1 (by rw [h])
      have g2 : reg ≠ 228 := fun h => h2 (by rw [h])
      have g3 : reg ≠ 229 := fun h => h3 (by rw [h])
      have g4 : reg ≠ 230 := fun h => h4 (by rw [h])
      simp [handleReset, MB_REG_RESET_B1_PARCIAL, MB_REG_RESET_B1_TOTAL,
        MB_REG_RESET_B2_PARCIAL, MB_REG_RESET_B2_TOTAL, g1, g2, g3, g4]

/-- Witness of C21: after the hand-over trace, resetting the total of pump 1
zeroes it, stores 0 under "b1_total_ms" and leaves the key of pump 2 alone. -/
theorem C21_resets_independientes_witness :
    (handleReset (some 228) trasRelevo.1 trasRelevo.2).1
      = { trasRelevo.1 with tiempoB1_total_ms := 0 } ∧
    (handleReset (some 228) trasRelevo.1 trasRelevo.2).2 "b1_total_ms"
      = some (ValorNVS.ulong 0) ∧
    ∀ k : String, k ≠ "b1_total_ms" →
      (handleReset (some 228) trasRelevo.1 trasRelevo.2).2 k = trasRelevo.2 k :=
  (C21_resets_independientes (some 228) trasRelevo.1 trasRelevo.2).2.1 rfl

/-- C22 (as stated, refuted): with the total of pump 1 at 4294967295 ms and
pump 1 on, an output update 100 ms after the previous one leaves the total at
99 ms, below its value before the update. -/
theorem C22_total_counterexample :
    estadoTotalAlLimite.bomba1_ON = true ∧
    estadoTotalAlLimite.tiempoB1_total_ms = 4294967295 ∧
    estadoTotalAlLimite.tiempoB1_total_ms < ULONG_MOD ∧
    (actualizarSalidas 100 NVS.vacio estadoTotalAlLimite).1.tiempoB1_total_ms = 99 ∧
    ¬ ((actualizarSalidas 100 NVS.vacio estadoTotalAlLimite).1.tiempoB1_total_ms
        ≥ estadoTotalAlLimite.tiempoB1_total_ms) := by
  have h := (actualizarSalidas_totales 100 NVS.vacio estadoTotalAlLimite).1
  rw [h, estadoTotalAlLimite, estadoEnMarcha_eq]
  simp [estadoInicial, restaU32, ULONG_MOD]

/-- C22 (amended): through an output update, for every state, the total of a
pump is its value before plus the elapsed time, modulo `2 ^ 32`, when that pump
is on, and is unchanged when it is off; so for each pump, whenever its total
plus the elapsed time stays below `2 ^ 32`, the total after the update is
greater than or equal to the total before. -/
theorem C22_total_monotono_sin_desborde (t : Nat) (nvs : NVS) (s : Estado) :
    (actualizarSalidas t nvs s).1.tiempoB1_total_ms
      = (if s.bomba1_ON = true then
          (s.tiempoB1_total_ms + restaU32 t s.ultimoUpdateContadores) % ULONG_MOD
         else s.tiempoB1_total_ms) ∧
    (actualizarSalidas t nvs s).1.tiempoB2_total_ms
      = (if s.bomba2_ON = true then
          (s.tiempoB2_total_ms + restaU32 t s.ultimoUpdateContadores) % ULONG_MOD
         else s.tiempoB2_total_ms) ∧
    (s.tiempoB1_total_ms + restaU32 t s.ultimoUpdateContadores < ULONG_MOD →
      (actualizarSalidas t nvs s).1.tiempoB1_total_ms ≥ s.tiempoB1_total_ms) ∧
    (s.tiempoB2_total_ms + restaU32 t s.ultimoUpdateContadores < ULONG_MOD →
      (actualizarSalidas t nvs s).1.tiempoB2_total_ms ≥ s.tiempoB2_total_ms) := by
  obtain ⟨e1, e2⟩ := actualizarSalidas_totales t nvs s
  refine ⟨e1, e2, ?_, ?_⟩
  · intro h1
    rw [e1, Nat.mod_eq_of_lt h1]
    split_ifs
    · exact Nat.le_add_right _ _
    · exact Nat.le_refl _
  · intro h2
    rw [e2, Nat.mod_eq_of_lt h2]
    split_ifs
    · exact Nat.le_add_right _ _
    · exact Nat.le_refl _

/-- Witness of C22 (amended): in the running state an update at time 100 does
not lower the total of pump 1; and with the total of pump 1 at the largest
32-bit value, the total of pump 2, which is off, is what the rule gives. -/
theorem C22_total_monotono_sin_desborde_witness :
    (actualizarSalidas 100 NVS.vacio estadoEnMarcha).1.tiempoB1_total_ms
      ≥ estadoEnMarcha.tiempoB1_total_ms ∧
    (actualizarSalidas 100 NVS.vacio estadoTotalAlLimite).1.tiempoB2_total_ms
      = (if estadoTotalAlLimite.bomba2_ON = true then
          (estadoTotalAlLimite.tiempoB2_total_ms
            + restaU32 100 estadoTotalAlLimite.ultimoUpdateContadores) % ULONG_MOD
         else estadoTotalAlLimite.tiempoB2_total_ms) :=
  ⟨(C22_total_monotono_sin_desborde 100 NVS.vacio estadoEnMarcha).2.2.1
      (by rw [estadoEnMarcha_eq]; simp [estadoInicial, restaU32, ULONG_MOD]),
   (C22_total_monotono_sin_desborde 100 NVS.vacio estadoTotalAlLimite).2.1⟩

/-! ## Claims about the temperature reading -/

/-- C23: `leerTemperaturaNTC` in exact arithmetic. For every integer raw sample
the result lies in the range 0..100; for a sample in 0..4095 it equals
raw x 100 / 4095; a negative sample gives 0 and one above 4095 gives 100; and
the result is non-decreasing in the sample. -/
theorem C23_temperatura_ntc (raw : Int) :
    0 ≤ leerTemperaturaNTC raw ∧ leerTemperaturaNTC raw ≤ 100 ∧
    (0 ≤ raw → raw ≤ 4095 → leerTemperaturaNTC raw = (raw : ℚ) * 100 / 4095) ∧
    (raw < 0 → leerTemperaturaNTC raw = 0) ∧
    (4095 < raw → leerTemperaturaNTC raw = 100) ∧
    (∀ raw2 : Int, raw ≤ raw2 → leerTemperaturaNTC raw ≤ leerTemperaturaNTC raw2) := by
  have hscale : ∀ r : Int, (r : ℚ) * 100 / 4095 = (r : ℚ) * (100 / 4095) := by
    intro r
    ring
  refine ⟨?_, ?_, ?_, ?_, ?_, ?_⟩
  · rw [leerTemperaturaNTC_eq]
    unfold constrain
    split_ifs <;> linarith
  · rw [leerTemperaturaNTC_eq]
    unfold constrain
    split_ifs <;> linarith
  · intro h0 h1
    have q0 : (0 : ℚ) ≤ (raw : ℚ) := by exact_mod_cast h0
    have q1 : (raw : ℚ) ≤ 4095 := by exact_mod_cast h1
    rw [leerTemperaturaNTC_eq]
    unfold constrain
    rw [hscale]
    split_ifs with a b
    · nlinarith
    · nlinarith
    · rfl
  · intro h0
    have q0 : (raw : ℚ) < 0 := by exact_mod_cast h0
    rw [leerTemperaturaNTC_eq]
    unfold constrain
    rw [hscale]
    split_ifs with a b
    · rfl
    · nlinarith
    · nlinarith
  · intro h1
    have q1 : (4095 : ℚ) < (raw : ℚ) := by exact_mod_cast h1
    rw [leerTemperaturaNTC_eq]
    unfold constrain
    rw [hscale]
    split_ifs with a b
    · nlinarith
    · rfl
    · nlinarith
  · intro raw2 h
    have q : (raw : ℚ) ≤ (raw2 : ℚ) := by exact_mod_cast h
    rw [leerTemperaturaNTC_eq, leerTemperaturaNTC_eq]
    apply constrain_mono
    rw [hscale, hscale]
    nlinarith

/-- Witness of C23: the ends of the scale, 0 and 4095, read 0 and 100 degrees,
and the out-of-range samples -5 and 5000 are clamped. -/
theorem C23_temperatura_ntc_witness :
    leerTemperaturaNTC 0 = ((0 : Int) : ℚ) * 100 / 4095 ∧
    leerTemperaturaNTC 4095 = ((4095 : Int) : ℚ) * 100 / 4095 ∧
    leerTemperaturaNTC (-5) = 0 ∧ leerTemperaturaNTC 5000 = 100 :=
  ⟨(C23_temperatura_ntc 0).2.2.1 (by decide) (by decide),
   (C23_temperatura_ntc 4095).2.2.1 (by decide) (by decide),
   (C23_temperatura_ntc (-5)).2.2.2.1 (by decide),
   (C23_temperatura_ntc 5000).2.2.2.2.1 (by decide)⟩

/-! ## Claims about the two alternation mechanisms -/

/-- C24: there are an alternation state and inputs with exactly one
thermal-relay fault and a pump available for which `determinarBombaActiva`
chooses pump 1 and `gestionarAlternancia` chooses pump 2. -/
theorem C24_mecanismos_discrepan :
    ∃ (cfg : Config) (p : Pines) (ahora : Nat) (s : Estado),
      (isALARMA p.PIN_RT1 ≠ isALARMA p.PIN_RT2) ∧
      (bomba1_disponible p = true ∨ bomba2_disponible p = true) ∧
      (determinarBombaActiva cfg p ahora s).1 = 1 ∧
      (gestionarAlternancia cfg (isALARMA p.PIN_RT1) (isALARMA p.PIN_RT2) s).bomba1_ON
        = false ∧
      (gestionarAlternancia cfg (isALARMA p.PIN_RT1) (isALARMA p.PIN_RT2) s).bomba2_ON
        = true := by
  refine ⟨cfgDefecto, pinesAveriaRT1, 7200000, estadoTurnoB2, by decide, Or.inr (by decide),
    ?_, ?_, ?_⟩
  · simp [determinarBombaActiva, cfgDefecto, pinesAveriaRT1, pinesNormal, estadoTurnoB2,
      estadoInicial, bomba1_disponible, bomba2_disponible, isALARMA, restaU32, ULONG_MOD]
  · simp [gestionarAlternancia, pinesAveriaRT1, pinesNormal, isALARMA]
  · simp [gestionarAlternancia, pinesAveriaRT1, pinesNormal, isALARMA]

/-- C25 (the code at the failing input): on the normal path, from the initial
state, with the switch of pump 1 off and pump 2 available, the tick commands
pump 1 on although it is not available. -/
theorem C25_arranca_bomba_no_disponible :
    isALARMA entSoloB2.pines.PIN_EMERGENCIA = false ∧
    isON entSoloB2.pines.PIN_SYS_ONOFF = true ∧
    isON entSoloB2.pines.PIN_JEFATURA = true ∧
    isON entSoloB2.pines.PIN_PROG_SEL = false ∧
    isALARMA entSoloB2.pines.PIN_RT1 = false ∧
    isALARMA entSoloB2.pines.PIN_RT2 = false ∧
    bomba1_disponible entSoloB2.pines = false ∧
    bomba2_disponible entSoloB2.pines = true ∧
    (ejecutarLogicaControl cfgDefecto entSoloB2 estadoInicial).bomba1_ON = true ∧
    (ejecutarLogicaControl cfgDefecto entSoloB2 estadoInicial).bomba2_ON = false := by
  simp [ejecutarLogicaControl, gestionarAlternancia, controlarTemperaturaGT, entSoloB2,
    entNormal, pinesNormal, estadoInicial, cfgDefecto, isALARMA, isON, bomba1_disponible,
    bomba2_disponible, ULONG_MOD]
  norm_num

/-- C28 (the code at the failing input): a call with pump 1 faulted suspends the
alternation; at the next call both pumps are available, and the engine returns
0, no pump. -/
theorem C28_suspendida_devuelve_ninguna :
    (determinarBombaActiva cfgDefecto pinesAveriaRT1 1000 estadoInicial).1 = 2 ∧
    (determinarBombaActiva cfgDefecto pinesAveriaRT1 1000
      estadoInicial).2.alternancia_suspendida = true ∧
    bomba1_disponible pinesNormal = true ∧ bomba2_disponible pinesNormal = true ∧
    (determinarBombaActiva cfgDefecto pinesNormal 2000
      (determinarBombaActiva cfgDefecto pinesAveriaRT1 1000 estadoInicial).2).1 = 0 := by
  simp [determinarBombaActiva, cfgDefecto, pinesAveriaRT1, pinesNormal, estadoInicial,
    bomba1_disponible, bomba2_disponible, isALARMA, restaU32, ULONG_MOD]

/-! ## Claims about what the arbiter does not read -/

/-- C29: a control tick does not depend on `cfg_tempMinGT_x10`,
`cfg_tempMaxGT_x10` or `cfg_sensorMode`: two ticks from the same state with the
same inputs and temperature whose parameters differ only in those three fields
end in the same state, so in the same five actuator flags and the same
post-circulation state. -/
theorem C29_ignora_min_max_modo (cfg : Config) (tmin tmax : Int) (modo : Nat) (e : Entorno)
    (s : Estado) :
    ejecutarLogicaControl
        { cfg with cfg_tempMinGT_x10 := tmin, cfg_tempMaxGT_x10 := tmax,
                   cfg_sensorMode := modo } e s
      = ejecutarLogicaControl cfg e s :=
  rfl

/-! ## Claims about the indicator and the condensation pump -/

/-- C26: starting from the initial state, after any finite sequence of control
ticks, post-circulation triggers and timer checks with arbitrary inputs,
`postCirculacion_ON` is false; consequently a further tick without emergency
that takes a stop branch (system off, or supervisory off, or schedule denied)
ends with both pumps off. -/
theorem C26_indicador_nunca_activo (evs : List Evento) (cfg : Config) (e : Entorno) :
    (ejecutarEventos estadoInicial evs).postCirculacion_ON = false ∧
    (isALARMA e.pines.PIN_EMERGENCIA = false →
      (isON e.pines.PIN_SYS_ONOFF = false ∨
        (¬ (isALARMA e.pines.PIN_RT1 = true ∧ isALARMA e.pines.PIN_RT2 = true) ∧
          (isON e.pines.PIN_JEFATURA = false ∨
            (isON e.pines.PIN_PROG_SEL = true ∧ verificarHorario cfg e.hora = false)))) →
      (ejecutarLogicaControl cfg e (ejecutarEventos estadoInicial evs)).bomba1_ON = false ∧
      (ejecutarLogicaControl cfg e (ejecutarEventos estadoInicial evs)).bomba2_ON = false) := by
  have h := ejecutarEventos_indicador evs estadoInicial (by simp [estadoInicial])
  exact ⟨h, fun hEm hStop => ejecutarLogicaControl_parada cfg e _ h hEm hStop⟩

/-- Witness of C26: after a normal tick (pump 1 and thermal group on), a
trigger and a timer check, the indicator is off, and switching the system off
stops both pumps. -/
theorem C26_indicador_nunca_activo_witness :
    (ejecutarEventos estadoInicial
      [Evento.tick { cfg := cfgDefecto, ent := entNormal, tiempoB1_ms := 0, tiempoB2_ms := 0 },
       Evento.disparo pinesNormal 5000,
       Evento.temporizador cfgDefecto 6000]).postCirculacion_ON = false ∧
    (ejecutarLogicaControl cfgDefecto entSistemaOff
      (ejecutarEventos estadoInicial
        [Evento.tick { cfg := cfgDefecto, ent := entNormal, tiempoB1_ms := 0, tiempoB2_ms := 0 },
         Evento.disparo pinesNormal 5000,
         Evento.temporizador cfgDefecto 6000])).bomba1_ON = false ∧
    (ejecutarLogicaControl cfgDefecto entSistemaOff
      (ejecutarEventos estadoInicial
        [Evento.tick { cfg := cfgDefecto, ent := entNormal, tiempoB1_ms := 0, tiempoB2_ms := 0 },
         Evento.disparo pinesNormal 5000,
         Evento.temporizador cfgDefecto 6000])).bomba2_ON = false :=
  ⟨(C26_indicador_nunca_activo _ cfgDefecto entSistemaOff).1,
   (C26_indicador_nunca_activo _ cfgDefecto entSistemaOff).2 (by decide) (Or.inl (by decide))⟩

/-- C27: from a state with the condensation pump on, a control tick without
emergency leaves it on, whatever the other inputs, and a tick with the
emergency input asserted switches it off. -/
theorem C27_condensacion_enclavada (cfg : Config) (e : Entorno) (s : Estado)
    (h : s.bombaCondensacion_ON = true) :
    (isALARMA e.pines.PIN_EMERGENCIA = false →
      (ejecutarLogicaControl cfg e s).bombaCondensacion_ON = true) ∧
    (isALARMA e.pines.PIN_EMERGENCIA = true →
      (ejecutarLogicaControl cfg e s).bombaCondensacion_ON = false) := by
  constructor
  · intro hEm
    exact ejecutarLogicaControl_condensacion cfg e s h hEm
  · intro hEm
    simp [ejecutarLogicaControl, hEm]

/-- Witness of C27: the condensation pump was started while no pump was
available; once both pumps are available again a normal tick starts pump 1 and
the condensation pump keeps running beside it. -/
theorem C27_condensacion_enclavada_witness :
    estadoCondensacion.bombaCondensacion_ON = true ∧
    bomba1_disponible entNormal.pines = true ∧ bomba2_disponible entNormal.pines = true ∧
    (ejecutarLogicaControl cfgDefecto entNormal estadoCondensacion).bomba1_ON = true ∧
    (ejecutarLogicaControl cfgDefecto entNormal estadoCondensacion).bombaCondensacion_ON
      = true := by
  have hc : estadoCondensacion.bombaCondensacion_ON = true := by rw [estadoCondensacion_eq]
  refine ⟨hc, by decide, by decide, ?_,
    (C27_condensacion_enclavada cfgDefecto entNormal estadoCondensacion hc).1 (by decide)⟩
  rw [estadoCondensacion_eq]
  simp [ejecutarLogicaControl, gestionarAlternancia, controlarTemperaturaGT, entNormal,
    pinesNormal, estadoInicial, cfgDefecto, isALARMA, isON, bomba1_disponible,
    bomba2_disponible, ULONG_MOD]
  norm_num

end Caldera
